import Mathlib

/-!
PlutoIPTV proxy: a shallow embedding of `src/favorites.js` and `src/index.js`

JavaScript strings are Lean strings; a missing or `null` field is `none`, except for `slug`
and `name`, where the two are kept apart (`Field`) because a template literal prints them
differently.  A thrown exception is the `error` side of `Except`, and the mutable global
`cachedData` is passed explicitly.  The fetched JSON is a `Payload`: `generateM3U8` and
`generateEPG` are first given on lists of channel objects, where they cannot throw, and then
extended to payloads that are no such list (`generateM3U8Payload`, `generateEPGPayload`).
The arithmetic of `grabJSON` is binary64 (`Double`).  Library calls whose result the code
only forwards (URL parsing, lower-casing, date formatting, XML printing, UUID generation)
are fields of a `Runtime` record or explicit function arguments, so every theorem holds for
whatever these libraries compute.
-/

namespace PlutoIPTV

/-! ## Data model -/

/-- An exception value: `TypeError` raised by the language, or an `Error` raised by user or
library code; both carry the `message`. -/
inductive JSError
  | typeError (message : String)
  | error (message : String)
deriving DecidableEq, Repr

/-- The `message` property of an exception. -/
def JSError.message : JSError → String
  | .typeError m => m
  | .error m => m

/-- The object at `episode.poster`. -/
structure Poster where
  path : Option String
deriving DecidableEq, Repr

/-- The `episode` object of a timeline item. -/
structure Episode where
  description : Option String
  genre : Option String
  poster : Option Poster
deriving DecidableEq, Repr

/-- One item of `channel.timelines`. -/
structure Programme where
  start : Option String
  stop : Option String
  title : Option String
  episode : Option Episode
deriving DecidableEq, Repr

/-- One item of `channel.stitched.urls`. -/
structure StitchedUrl where
  url : Option String
deriving DecidableEq, Repr

/-- The object at `channel.stitched`. -/
structure Stitched where
  urls : Option (List StitchedUrl)
deriving DecidableEq, Repr

/-- The object at `channel.colorLogoPNG`. -/
structure Logo where
  path : Option String
deriving DecidableEq, Repr

/-- A field that holds a string in well-formed data: missing (`undefined` when read), JSON
`null`, or the string. -/
inductive Field
  | missing
  | null
  | string (s : String)
deriving DecidableEq, Repr

/-- The string a field holds, if it holds one: what optional chaining, truthiness tests and
`xmlbuilder2` see, for which `undefined` and `null` are alike. -/
def Field.toOption : Field → Option String
  | .string s => some s
  | _ => none

/-- A channel object of the fetched JSON array.  `slug` and `name` distinguish a missing
field from `null`, because a template literal prints them differently; in the other fields
`none` stands for both.  `isStitched` is the truthiness of the field; `timelines = none` is
a missing or `null` field, `some []` an empty array. -/
structure Channel where
  slug : Field
  _id : Option String
  id : Option String
  name : Field
  isStitched : Bool
  stitched : Option Stitched
  colorLogoPNG : Option Logo
  category : Option String
  timelines : Option (List Programme)
deriving DecidableEq, Repr

/-! ## `favorites.js` -/

/-- `String.prototype.includes`: the search string occurs as a contiguous run. -/
def includes (s searchString : String) : Bool :=
  decide (searchString.data <:+: s.data)

/-- `field?.toLowerCase() === favLower`; `undefined === favLower` is `false`. -/
def lowerEquals (toLowerCase : String → String) (field : Option String)
    (favLower : String) : Bool :=
  match field with
  | some s => toLowerCase s == favLower
  | none => false

/-- `field?.toLowerCase().includes(favLower)`; the chain yields `undefined` (falsy) when the
field is missing. -/
def lowerIncludes (toLowerCase : String → String) (field : Option String)
    (favLower : String) : Bool :=
  match field with
  | some s => includes (toLowerCase s) favLower
  | none => false

/-- An instance of the class `FavoritesFilter`, after its constructor has run. -/
structure FavoritesFilter where
  favorites : List String
deriving DecidableEq, Repr

/-- `FavoritesFilter.isEmpty`. -/
def FavoritesFilter.isEmpty (self : FavoritesFilter) : Bool :=
  self.favorites.length == 0

/-- The callback given to `this.favorites.some` in `FavoritesFilter.filter`. -/
def FavoritesFilter.matchesTerm (toLowerCase : String → String) (channel : Channel)
    (fav : String) : Bool :=
  let favLower := toLowerCase fav
  lowerEquals toLowerCase channel.slug.toOption favLower ||
  lowerEquals toLowerCase channel._id favLower ||
  lowerEquals toLowerCase channel.id favLower ||
  lowerEquals toLowerCase channel.name.toOption favLower ||
  lowerIncludes toLowerCase channel.slug.toOption favLower ||
  lowerIncludes toLowerCase channel.name.toOption favLower

/-- `FavoritesFilter.filter(channel)`. -/
def FavoritesFilter.filter (toLowerCase : String → String) (self : FavoritesFilter)
    (channel : Channel) : Bool :=
  if self.isEmpty then true
  else self.favorites.any (FavoritesFilter.matchesTerm toLowerCase channel)

/-- The factory `from(favoritesPath)`: `loaded` is the term list that `loadFavorites` read
from the file at that path (empty when the file is missing or unreadable). -/
def favoritesFrom (loaded : List String) : FavoritesFilter :=
  { favorites := loaded }

/-- `String.prototype.toLowerCase` restricted to the ASCII letters, used to evaluate the
definitions on sample inputs. -/
def asciiLower (s : String) : String :=
  ⟨s.data.map Char.toLower⟩

/-- A term hits a text field (slug or display name) when it equals the field or is a
substring of it once both are lower-cased. -/
def termHitsText (toLowerCase : String → String) (fav : String)
    (field : Option String) : Prop :=
  ∃ s, field = some s ∧ (fav = s ∨ includes (toLowerCase s) (toLowerCase fav) = true)

/-- The acceptance condition with the id fields compared exactly (character for
character), as the interface description words it. -/
def acceptsExactIds (toLowerCase : String → String) (favorites : List String)
    (channel : Channel) : Prop :=
  favorites = [] ∨ ∃ fav ∈ favorites,
    termHitsText toLowerCase fav channel.slug.toOption ∨
    termHitsText toLowerCase fav channel.name.toOption ∨
    channel._id = some fav ∨ channel.id = some fav

/-- A term hits an id field when the two are equal once both are lower-cased. -/
def termHitsId (toLowerCase : String → String) (fav : String)
    (field : Option String) : Prop :=
  ∃ s, field = some s ∧ toLowerCase s = toLowerCase fav

/-- The acceptance condition with the id fields compared ignoring case. -/
def acceptsLowerIds (toLowerCase : String → String) (favorites : List String)
    (channel : Channel) : Prop :=
  favorites = [] ∨ ∃ fav ∈ favorites,
    termHitsText toLowerCase fav channel.slug.toOption ∨
    termHitsText toLowerCase fav channel.name.toOption ∨
    termHitsId toLowerCase fav channel._id ∨ termHitsId toLowerCase fav channel.id

/-- A channel with only a display name. -/
def namedChannel (name : String) : Channel :=
  { slug := .missing, _id := none, id := none, name := .string name, isStitched := true,
    stitched := none, colorLogoPNG := none, category := none, timelines := none }

/-- A channel known only by its `_id`. -/
def idChannel (ident : String) : Channel :=
  { slug := .missing, _id := some ident, id := none, name := .missing, isStitched := true,
    stitched := none, colorLogoPNG := none, category := none, timelines := none }

/-! ## Library values used by `index.js` -/

/-- The components of a parsed `URL` object.  `search` is what the `search` getter returns:
empty, or the query with its leading question mark. -/
structure URL where
  protocol : String
  username : String
  password : String
  host : String
  pathname : String
  search : String
  hash : String
deriving DecidableEq, Repr

/-- A node of the document built with `xmlbuilder2`. -/
inductive XNode
  | element (name : String) (attributes : List (String × String)) (children : List XNode)
  | text (data : String)
deriving Repr

/-- The library functions `index.js` calls and whose results it only forwards. -/
structure Runtime where
  /-- The call `new URL(s)`: `none` when the constructor throws. -/
  parseURL : String → Option URL
  /-- The method `URL.prototype.toString`. -/
  href : URL → String
  /-- The list held by `new URLSearchParams(search)`. -/
  parseQuery : String → List (String × String)
  /-- The method `URLSearchParams.prototype.toString`. -/
  serializeQuery : List (String × String) → String
  /-- The value returned by the n-th call of `uuid1()`. -/
  uuid1 : Nat → String
  /-- The value returned by the n-th call of `uuid4()`. -/
  uuid4 : Nat → String
  /-- The string `moment(x).format('YYYYMMDDHHmmss ZZ')`. -/
  formatTime : Option String → String
  /-- The string `root.end({ prettyPrint: true })`. -/
  xmlEnd : XNode → String

/-- The text a template literal puts for a field: the string itself, `null`, or
`undefined`. -/
def templateText : Field → String
  | .string s => s
  | .null => "null"
  | .missing => "undefined"

/-- Truthiness of a string-valued field: present and not empty. -/
def truthy : Option String → Bool
  | some s => s != ""
  | none => false

/-- The expression `field || fallback` for a string-valued field. -/
def orElse (field : Option String) (fallback : String) : String :=
  match field with
  | some s => if s != "" then s else fallback
  | none => fallback

/-! ## `generateM3U8` -/

/-- `URLSearchParams.prototype.set` on a list that already holds the name: the first pair
with the name takes the value, the later ones are removed. -/
def setFirst : List (String × String) → String → String → List (String × String)
  | [], _, _ => []
  | (k, v) :: rest, name, value =>
    if k = name then (name, value) :: rest.filter (fun kv => kv.1 != name)
    else (k, v) :: setFirst rest name value

/-- `URLSearchParams.prototype.set(name, value)`. -/
def paramsSet (params : List (String × String)) (name value : String) :
    List (String × String) :=
  if params.any (fun kv => kv.1 == name) then setFirst params name value
  else params ++ [(name, value)]

/-- The seventeen `params.set(...)` calls of `generateM3U8`, in source order. -/
def identityParams (deviceId sid : String) : List (String × String) :=
  [("advertisingId", ""), ("appName", "web"), ("appVersion", "unknown"),
   ("appStoreUrl", ""), ("architecture", ""), ("buildVersion", ""),
   ("clientTime", "0"), ("deviceDNT", "0"), ("deviceId", deviceId),
   ("deviceMake", "Chrome"), ("deviceModel", "web"), ("deviceType", "web"),
   ("deviceVersion", "unknown"), ("includeExtendedEvents", "false"), ("sid", sid),
   ("userId", ""), ("serverSideAds", "true")]

/-- The names set by `generateM3U8`. -/
def identityKeys : List String :=
  (identityParams "" "").map Prod.fst

/-- The parameter list after the seventeen `set` calls. -/
def rewriteParams (params : List (String × String)) (deviceId sid : String) :
    List (String × String) :=
  (identityParams deviceId sid).foldl (fun acc kv => paramsSet acc kv.1 kv.2) params

/-- The URL object after `m3uUrl.search = params.toString()`: only the query changes.  The
serialised list is never empty here, so the getter returns it behind a question mark. -/
def rewriteURL (rt : Runtime) (m3uUrl : URL) (deviceId sid : String) : URL :=
  { m3uUrl with
    search := "?" ++ rt.serializeQuery (rewriteParams (rt.parseQuery m3uUrl.search) deviceId sid) }

/-- The expression `new URL(channel.stitched.urls[0].url)`: a missing `stitched`, `urls`,
first item or `url`, or a string the URL parser refuses, throws a `TypeError`. -/
def streamTemplate (rt : Runtime) (channel : Channel) : Except JSError URL :=
  match channel.stitched with
  | none => .error (.typeError "Cannot read properties of undefined (reading urls)")
  | some stitched =>
    match stitched.urls with
    | none => .error (.typeError "Cannot read properties of undefined (reading 0)")
    | some [] => .error (.typeError "Cannot read properties of undefined (reading url)")
    | some (first :: _) =>
      match first.url with
      | none => .error (.typeError "Invalid URL")
      | some s =>
        match rt.parseURL s with
        | none => .error (.typeError "Invalid URL")
        | some u => .ok u

/-- The fields of one playlist entry. -/
structure M3UEntry where
  tvgId : String
  tvgLogo : String
  groupTitle : String
  name : String
  url : String
deriving DecidableEq, Repr

/-- The text appended to `m3u8` for one entry: the metadata line, the URL, a blank line. -/
def M3UEntry.render (e : M3UEntry) : String :=
  "#EXTINF:0 tvg-id=\"" ++ e.tvgId ++ "\" tvg-logo=\"" ++ e.tvgLogo ++
    "\" group-title=\"" ++ e.groupTitle ++ "\", " ++ e.name ++ "\n" ++ e.url ++ "\n\n"

/-- The body of the `try` block of `generateM3U8` up to the values interpolated into the
entry; `calls` counts the earlier executions of the block, which index the UUID calls. -/
def m3uEntry (rt : Runtime) (channel : Channel) (calls : Nat) : Except JSError M3UEntry :=
  let deviceId := rt.uuid1 calls
  let sid := rt.uuid4 calls
  match streamTemplate rt channel with
  | .error e => .error e
  | .ok m3uUrl =>
    let m3uUrl := rewriteURL rt m3uUrl deviceId sid
    let slug := templateText channel.slug
    let logo := orElse (channel.colorLogoPNG.bind Logo.path) ""
    let group := orElse channel.category "General"
    let name := templateText channel.name
    .ok { tvgId := slug, tvgLogo := logo, groupTitle := group, name := name,
          url := rt.href m3uUrl }

/-- The variables the `forEach` callback of `generateM3U8` updates. -/
structure M3UState where
  m3u8 : String
  count : Nat
  calls : Nat
deriving DecidableEq, Repr

/-- One run of the `forEach` callback of `generateM3U8`. -/
def m3uStep (rt : Runtime) (st : M3UState) (channel : Channel) : M3UState :=
  if !channel.isStitched then st
  else
    match m3uEntry rt channel st.calls with
    | .ok e => { m3u8 := st.m3u8 ++ e.render, count := st.count + 1, calls := st.calls + 1 }
    | .error _ => { st with calls := st.calls + 1 }

/-- `generateM3U8(channels)`. -/
def generateM3U8 (rt : Runtime) (channels : List Channel) : String :=
  (channels.foldl (m3uStep rt) { m3u8 := "#EXTM3U\n", count := 0, calls := 0 }).m3u8

/-- The entries of the playlist, read off the channel list: `calls` is the number of
stitched channels already visited. -/
def m3uEntries (rt : Runtime) : Nat → List Channel → List M3UEntry
  | _, [] => []
  | calls, channel :: rest =>
    if !channel.isStitched then m3uEntries rt calls rest
    else
      match m3uEntry rt channel calls with
      | .ok e => e :: m3uEntries rt (calls + 1) rest
      | .error _ => m3uEntries rt (calls + 1) rest

/-- A channel qualifies for the playlist: it is stitched and its stream URL parses. -/
def qualifies (rt : Runtime) (channel : Channel) : Bool :=
  channel.isStitched && (streamTemplate rt channel).toBool


/-! ## `generateEPG` -/

/-- The attributes `ele(name, attributes)` puts on the new element: `xmlbuilder2` skips an
attribute whose value is `undefined` (its option `keepNullAttributes` is off). -/
def eleAttributes (attributes : List (String × Option String)) : List (String × String) :=
  attributes.filterMap (fun kv => kv.2.map (fun v => (kv.1, v)))

/-- The children `txt(content)` gives an element: `xmlbuilder2` adds no text node for
`undefined` content (its option `keepNullNodes` is off). -/
def txt : Option String → List XNode
  | some s => [.text s]
  | none => []

/-- The tag of an element node. -/
def XNode.tag : XNode → Option String
  | .element name _ _ => some name
  | .text _ => none

/-- The value of an attribute of an element node. -/
def XNode.attr : XNode → String → Option String
  | .element _ attributes _, key => (attributes.find? (fun kv => kv.1 == key)).map Prod.snd
  | .text _, _ => none

/-- The child nodes of an element node. -/
def XNode.childNodes : XNode → List XNode
  | .element _ _ children => children
  | .text _ => []

/-- The `channel` element the first pass adds for a stitched channel. -/
def channelNode (channel : Channel) : XNode :=
  .element "channel" (eleAttributes [("id", channel.slug.toOption)])
    ([XNode.element "display-name" [] (txt channel.name.toOption)] ++
      (if truthy (channel.colorLogoPNG.bind Logo.path) then
        [XNode.element "icon"
          (eleAttributes [("src", channel.colorLogoPNG.bind Logo.path)]) []]
      else []))

/-- The `programme` element the second pass adds for one timeline item. -/
def programmeNode (rt : Runtime) (channel : Channel) (programme : Programme) : XNode :=
  let genre := programme.episode.bind Episode.genre
  let poster := (programme.episode.bind Episode.poster).bind Poster.path
  .element "programme"
    (eleAttributes [("start", some (rt.formatTime programme.start)),
      ("stop", some (rt.formatTime programme.stop)), ("channel", channel.slug.toOption)])
    ([XNode.element "title" [("lang", "es")] (txt (some (orElse programme.title "Sin título"))),
      XNode.element "desc" [("lang", "es")]
        (txt (some (orElse (programme.episode.bind Episode.description) "")))] ++
      (if truthy genre then [XNode.element "category" [("lang", "es")] (txt genre)] else []) ++
      (if truthy poster then [XNode.element "icon" (eleAttributes [("src", poster)]) []]
       else []))

/-- The variables the two passes of `generateEPG` update: the children of the `tv` root
and the two counters. -/
structure EPGState where
  root : List XNode
  channelCount : Nat
  programmeCount : Nat

/-- One run of the callback of the first `forEach` of `generateEPG`. -/
def epgChannelStep (st : EPGState) (channel : Channel) : EPGState :=
  if !channel.isStitched then st
  else { st with root := st.root ++ [channelNode channel],
                 channelCount := st.channelCount + 1 }

/-- One run of the callback of `channel.timelines.forEach`. -/
def epgTimelineStep (rt : Runtime) (channel : Channel) (st : EPGState)
    (programme : Programme) : EPGState :=
  { st with root := st.root ++ [programmeNode rt channel programme],
            programmeCount := st.programmeCount + 1 }

/-- One run of the callback of the second `forEach` of `generateEPG`. -/
def epgProgrammeStep (rt : Runtime) (st : EPGState) (channel : Channel) : EPGState :=
  if !channel.isStitched || channel.timelines.isNone then st
  else (channel.timelines.getD []).foldl (epgTimelineStep rt channel) st

/-- The document `generateEPG` has built when it calls `root.end`. -/
def generateEPGDoc (rt : Runtime) (channels : List Channel) : XNode :=
  let st := channels.foldl epgChannelStep { root := [], channelCount := 0, programmeCount := 0 }
  let st := channels.foldl (epgProgrammeStep rt) st
  .element "tv" [("generator-info-name", "plutoIPTV-proxy")] st.root

/-- `generateEPG(channels)`. -/
def generateEPG (rt : Runtime) (channels : List Channel) : String :=
  rt.xmlEnd (generateEPGDoc rt channels)

/-- The programme nodes owed to one channel: one per timeline item when the channel is
stitched and has a `timelines` array. -/
def programmeNodesOf (rt : Runtime) (channel : Channel) : List XNode :=
  if channel.isStitched then (channel.timelines.getD []).map (programmeNode rt channel)
  else []

/-! ## Payloads that are not channel lists -/

/-- An element of a fetched JSON array: `null`, a channel object, or a channel object whose
`timelines` field holds a truthy value that is not an array (a number, a string, an
object); `channel` then gives its other fields. -/
inductive Element
  | null
  | channel (channel : Channel)
  | oddTimelines (channel : Channel)
deriving DecidableEq, Repr

/-- The value `grabJSON` resolves with, which is whatever JSON the cache file or the
response body holds: `null`, a value that is neither `null` nor an array, or an array. -/
inductive Payload
  | null
  | notArray
  | array (elements : List Element)
deriving DecidableEq, Repr

/-- The payload that is an array of well-formed channel objects. -/
def Payload.ofChannels (channels : List Channel) : Payload :=
  .array (channels.map Element.channel)

/-- One run of the `forEach` callback of `generateM3U8` on an arbitrary element: the read
`channel.isStitched` stands before the `try` and throws on `null`; `timelines` is not
read. -/
def m3uStepElement (rt : Runtime) (st : M3UState) : Element → Except JSError M3UState
  | .null => .error (.typeError "Cannot read properties of null (reading isStitched)")
  | .channel channel => .ok (m3uStep rt st channel)
  | .oddTimelines channel => .ok (m3uStep rt st channel)

/-- `generateM3U8(channels)` for an arbitrary payload: `channels.forEach` needs an array, and
an exception of the callback outside its `try` leaves the function. -/
def generateM3U8Payload (rt : Runtime) : Payload → Except JSError String
  | .null => .error (.typeError "Cannot read properties of null (reading forEach)")
  | .notArray => .error (.typeError "channels.forEach is not a function")
  | .array elements =>
    match elements.foldlM (m3uStepElement rt) { m3u8 := "#EXTM3U\n", count := 0, calls := 0 } with
    | .error e => .error e
    | .ok st => .ok st.m3u8

/-- One run of the callback of the first `forEach` of `generateEPG` on an arbitrary
element. -/
def epgChannelStepElement (st : EPGState) : Element → Except JSError EPGState
  | .null => .error (.typeError "Cannot read properties of null (reading isStitched)")
  | .channel channel => .ok (epgChannelStep st channel)
  | .oddTimelines channel => .ok (epgChannelStep st channel)

/-- One run of the callback of the second `forEach` of `generateEPG` on an arbitrary
element: `channel.timelines.forEach` stands outside the inner `try` and throws when a
stitched channel holds a truthy `timelines` that is not an array. -/
def epgProgrammeStepElement (rt : Runtime) (st : EPGState) : Element → Except JSError EPGState
  | .null => .error (.typeError "Cannot read properties of null (reading isStitched)")
  | .channel channel => .ok (epgProgrammeStep rt st channel)
  | .oddTimelines channel =>
    if !channel.isStitched then .ok st
    else .error (.typeError "channel.timelines.forEach is not a function")

/-- `generateEPG(channels)` for an arbitrary payload. -/
def generateEPGPayload (rt : Runtime) : Payload → Except JSError String
  | .null => .error (.typeError "Cannot read properties of null (reading forEach)")
  | .notArray => .error (.typeError "channels.forEach is not a function")
  | .array elements =>
    match elements.foldlM epgChannelStepElement
        { root := [], channelCount := 0, programmeCount := 0 } with
    | .error e => .error e
    | .ok st =>
      match elements.foldlM (epgProgrammeStepElement rt) st with
      | .error e => .error e
      | .ok st =>
        .ok (rt.xmlEnd (.element "tv" [("generator-info-name", "plutoIPTV-proxy")] st.root))

/-! ## JavaScript numbers -/

/-- A finite IEEE-754 binary64 number, written as the integer `m` times two to the power
`e`.  Overflow, subnormal numbers, infinities and NaN are not represented: the values of
`grabJSON` are far from them. -/
structure Double where
  m : Int
  e : Int
deriving DecidableEq, Repr

/-- The natural number nearest to `n / d`, a tie going to the even one. -/
def roundHalfEven (n d : Nat) : Nat :=
  let q := n / d
  let r := n % d
  if 2 * r < d then q
  else if d < 2 * r then q + 1
  else if q % 2 = 0 then q else q + 1

/-- The number of binary digits of `n`, computed with at most `fuel` halvings. -/
def bitLength : Nat → Nat → Nat
  | 0, _ => 0
  | fuel + 1, n => if n = 0 then 0 else bitLength fuel (n / 2) + 1

/-- The binary64 number nearest to `num / den` for `den > 0`, ties to even: with `e` the
binary exponent of the quotient, the quotient is scaled by `2 ^ (52 - e)`, which gives it 53
significant bits, and rounded to an integer. -/
def Double.round (num : Int) (den : Nat) : Double :=
  if num = 0 then { m := 0, e := 0 }
  else
    let n := num.natAbs
    let e0 : Int := (bitLength n n : Int) - (bitLength den den : Int)
    let below : Bool :=
      if 0 ≤ e0 then decide (n < den * 2 ^ e0.toNat)
      else decide (n * 2 ^ (-e0).toNat < den)
    let e : Int := if below then e0 - 1 else e0
    let s : Int := 52 - e
    let m : Nat :=
      if 0 ≤ s then roundHalfEven (n * 2 ^ s.toNat) den
      else roundHalfEven n (den * 2 ^ (-s).toNat)
    { m := if num < 0 then -(m : Int) else (m : Int), e := -s }

/-- The Number value of an integer. -/
def Double.ofInt (n : Int) : Double :=
  Double.round n 1

/-- The quotient `a / d` for a positive integer literal `d`: the exact quotient, rounded. -/
def Double.divNat (a : Double) (d : Nat) : Double :=
  if 0 ≤ a.e then Double.round (a.m * 2 ^ a.e.toNat) d
  else Double.round a.m (d * 2 ^ (-a.e).toNat)

/-- The difference `a - b`: the exact difference, rounded. -/
def Double.sub (a b : Double) : Double :=
  let e := min a.e b.e
  let num := a.m * 2 ^ (a.e - e).toNat - b.m * 2 ^ (b.e - e).toNat
  if 0 ≤ e then Double.round (num * 2 ^ e.toNat) 1
  else Double.round num (2 ^ (-e).toNat)

/-- The comparison `a < b`, which is exact. -/
def Double.lt (a b : Double) : Bool :=
  let e := min a.e b.e
  decide (a.m * 2 ^ (a.e - e).toNat < b.m * 2 ^ (b.e - e).toNat)

/-! ## `grabJSON` -/

/-- The fields of `CONFIG` the pipeline reads. -/
structure Config where
  UPDATE_INTERVAL : Int
  EPG_HOURS : Int
deriving DecidableEq, Repr

/-- The file `cache.json` when it exists: its modification time in milliseconds and what
`fs.readJSONSync` returns for it (`none` when it throws on unparsable content). -/
structure CacheFile where
  mtimeMs : Int
  json : Option Payload
deriving DecidableEq, Repr

/-- What the callback of `request` receives. -/
inductive HttpResult
  | failed (err : JSError)
  | response (statusCode : Nat) (body : String)
deriving DecidableEq, Repr

/-- What the file system, the clock and the network answer during one `grabJSON` call. -/
structure FetchEnv where
  cacheFile : Option CacheFile
  nowMs : Int
  http : HttpResult
  parseJSON : String → Except JSError Payload
  writeCache : String → Except JSError Unit

/-- How a `grabJSON` call ends: the settled promise, whether an HTTP request was issued,
and the body written to `cache.json`. -/
structure GrabResult where
  settled : Except JSError Payload
  requested : Bool
  cacheWritten : Option String

/-- The value `cacheAge`, computed as the source computes it: `now` and `mtime` are the
millisecond counts divided by 1000, and their difference is divided by 60, each operation
rounding to binary64. -/
def cacheAge (nowMs mtimeMs : Int) : Double :=
  let now := (Double.ofInt nowMs).divNat 1000
  let mtime := (Double.ofInt mtimeMs).divNat 1000
  (now.sub mtime).divNat 60

/-- The second half of `grabJSON`: the HTTP request and its callback. -/
def requestAPI (env : FetchEnv) : GrabResult :=
  match env.http with
  | .failed err => { settled := .error err, requested := true, cacheWritten := none }
  | .response statusCode body =>
    if statusCode != 200 then
      { settled := .error (.error ("API returned status " ++ toString statusCode)),
        requested := true, cacheWritten := none }
    else
      match env.parseJSON body with
      | .error e => { settled := .error e, requested := true, cacheWritten := none }
      | .ok data =>
        match env.writeCache body with
        | .error e => { settled := .error e, requested := true, cacheWritten := none }
        | .ok _ => { settled := .ok data, requested := true, cacheWritten := some body }

/-- `grabJSON()`. -/
def grabJSON (cfg : Config) (env : FetchEnv) : GrabResult :=
  match env.cacheFile with
  | none => requestAPI env
  | some file =>
    if (cacheAge env.nowMs file.mtimeMs).lt (Double.ofInt cfg.UPDATE_INTERVAL) then
      match file.json with
      | some data => { settled := .ok data, requested := false, cacheWritten := none }
      | none => requestAPI env
    else requestAPI env

/-! ## `updateData` and the refresh endpoint -/

/-- The global `cachedData`. -/
structure CachedData where
  channels : Payload
  m3u8 : String
  epg : String
  lastUpdate : Option String
  isUpdating : Bool
deriving DecidableEq, Repr

/-- The value `cachedData` is created with. -/
def initialCachedData : CachedData :=
  { channels := .array [], m3u8 := "", epg := "", lastUpdate := none, isUpdating := false }

/-- What the environment answers during one update attempt: the fetch, the favorites file,
the clock string `moment().format('YYYY-MM-DD HH:mm:ss')`, and the two backup writes. -/
structure UpdateEnv where
  fetch : FetchEnv
  favorites : List String
  now : String
  writeFileSync : String → String → Except JSError Unit

/-- A value handed to `Array.prototype.filter` as its callback. -/
inductive FilterArg
  | function (f : Element → Bool)
  | object (o : FavoritesFilter)

/-- The call `channels.filter(callback)`: a `TypeError` when `channels` has no `filter`
method, and, on an array, unless the argument is callable. -/
def arrayFilter : Payload → FilterArg → Except JSError Payload
  | .null, _ => .error (.typeError "Cannot read properties of null (reading filter)")
  | .notArray, _ => .error (.typeError "channels.filter is not a function")
  | .array elements, .function f => .ok (.array (elements.filter f))
  | .array _, .object _ => .error (.typeError "#<FavoritesFilter> is not a function")

/-- The read `channels.length` in the log line of the `else` branch: it throws on `null`. -/
def readLength : Payload → Except JSError Payload
  | .null => .error (.typeError "Cannot read properties of null (reading length)")
  | channels => .ok channels

/-- The `try` block of `updateData`: the state of `cachedData` when the block is left, and
the exception that left it, if any. -/
def tryBlock (cfg : Config) (rt : Runtime) (env : UpdateEnv) (cachedData : CachedData) :
    CachedData × Option JSError :=
  match (grabJSON cfg env.fetch).settled with
  | .error e => (cachedData, some e)
  | .ok channels =>
    let favoritesFilter := favoritesFrom env.favorites
    let filtered :=
      if !favoritesFilter.isEmpty then arrayFilter channels (.object favoritesFilter)
      else readLength channels
    match filtered with
    | .error e => (cachedData, some e)
    | .ok channels =>
      let cachedData := { cachedData with channels := channels }
      match generateM3U8Payload rt channels with
      | .error e => (cachedData, some e)
      | .ok m3u8 =>
        let cachedData := { cachedData with m3u8 := m3u8 }
        match generateEPGPayload rt channels with
        | .error e => (cachedData, some e)
        | .ok epg =>
          let cachedData := { cachedData with epg := epg }
          let cachedData := { cachedData with lastUpdate := some env.now }
          match env.writeFileSync "playlist.m3u8" cachedData.m3u8 with
          | .error e => (cachedData, some e)
          | .ok _ =>
            match env.writeFileSync "epg.xml" cachedData.epg with
            | .error e => (cachedData, some e)
            | .ok _ => (cachedData, none)

/-- How an `updateData` call ends: the global state, whether the guard let it start, the
exception its `catch` clause logged, and how the returned promise settles. -/
structure UpdateResult where
  cachedData : CachedData
  started : Bool
  caught : Option JSError
  settled : Except JSError Unit

/-- `updateData` from `try` to the end: the `catch` clause logs the exception and does not
rethrow it, the `finally` clause clears `isUpdating`, and the promise resolves. -/
def updateBody (cfg : Config) (rt : Runtime) (env : UpdateEnv) (cachedData : CachedData) :
    UpdateResult :=
  let (cachedData, thrown) := tryBlock cfg rt env cachedData
  { cachedData := { cachedData with isUpdating := false }, started := true,
    caught := thrown, settled := .ok () }

/-- `updateData()`, run to completion. -/
def updateData (cfg : Config) (rt : Runtime) (env : UpdateEnv) (cachedData : CachedData) :
    UpdateResult :=
  if cachedData.isUpdating then
    { cachedData := cachedData, started := false, caught := none, settled := .ok () }
  else updateBody cfg rt env { cachedData with isUpdating := true }

/-- The three answers of `POST /refresh`: status 429, status 200 with `lastUpdate`, and
status 500 with the error message. -/
inductive Response
  | busy
  | success (lastUpdate : Option String)
  | failed (message : String)
deriving DecidableEq, Repr

/-- The answer the `/refresh` handler sends once the awaited `updateData()` has settled. -/
def refreshResponse (r : UpdateResult) : Response :=
  match r.settled with
  | .ok _ => .success r.cachedData.lastUpdate
  | .error e => .failed e.message

/-- The `POST /refresh` handler, run to completion. -/
def refreshHandler (cfg : Config) (rt : Runtime) (env : UpdateEnv)
    (cachedData : CachedData) : CachedData × Response :=
  if cachedData.isUpdating then (cachedData, .busy)
  else
    let r := updateData cfg rt env cachedData
    (r.cachedData, refreshResponse r)

/-! ## The server as a transition system -/

/-- Who started an update sequence. -/
inductive Trigger
  | timer
  | manual
deriving DecidableEq, Repr

/-- The process state: `cachedData`, the update sequences that were started and have not
ended (each waiting at `await this.grabJSON()`), and the number of fetches started. -/
structure Server where
  cachedData : CachedData
  inFlight : List Trigger
  fetches : Nat
deriving DecidableEq, Repr

/-- The state after process start-up, before the first update. -/
def initialServer : Server :=
  { cachedData := initialCachedData, inFlight := [], fetches := 0 }

/-- The events the event loop interleaves. -/
inductive Event
  | tick
  | refresh
  | settle (env : UpdateEnv)

/-- `updateData` up to `await this.grabJSON()`: the guard, the flag, the fetch. -/
def beginUpdate (origin : Trigger) (s : Server) : Server :=
  if s.cachedData.isUpdating then s
  else
    { cachedData := { s.cachedData with isUpdating := true },
      inFlight := s.inFlight ++ [origin], fetches := s.fetches + 1 }

/-- One event: the new state and the HTTP answer sent, if any. -/
def step (cfg : Config) (rt : Runtime) (s : Server) : Event → Server × Option Response
  | .tick => (beginUpdate .timer s, none)
  | .refresh =>
    if s.cachedData.isUpdating then (s, some .busy)
    else (beginUpdate .manual s, none)
  | .settle env =>
    match s.inFlight with
    | [] => (s, none)
    | origin :: rest =>
      let r := updateBody cfg rt env s.cachedData
      ({ cachedData := r.cachedData, inFlight := rest, fetches := s.fetches },
        match origin with
        | .timer => none
        | .manual => some (refreshResponse r))

/-- The state after a sequence of events from the initial state. -/
def run (cfg : Config) (rt : Runtime) (events : List Event) : Server :=
  events.foldl (fun s ev => (step cfg rt s ev).1) initialServer

/-! ## Sample inputs -/

/-- A stream URL template that repeats `deviceId` and carries a parameter of its own. -/
def sampleTemplate : String :=
  "https://stitcher.pluto.tv/hls/5a4d/master.m3u8?deviceId=a&terminate=false&sid=b&deviceId=c"

/-- The URL object the WHATWG parser builds for `sampleTemplate`. -/
def sampleURL : URL :=
  { protocol := "https:", username := "", password := "", host := "stitcher.pluto.tv",
    pathname := "/hls/5a4d/master.m3u8",
    search := "?deviceId=a&terminate=false&sid=b&deviceId=c", hash := "" }

/-- A sample runtime for evaluating the definitions.  It parses `sampleTemplate` and its
query as the real libraries do and refuses every other string; it prints a URL from its
components, a query without escaping, a time as the raw field, and of a document only the
tags of the children of the root. -/
def sampleRuntime : Runtime where
  parseURL s := if s = sampleTemplate then some sampleURL else none
  href u := u.protocol ++ "//" ++ u.host ++ u.pathname ++ u.search ++ u.hash
  parseQuery s :=
    if s = sampleURL.search then
      [("deviceId", "a"), ("terminate", "false"), ("sid", "b"), ("deviceId", "c")]
    else []
  serializeQuery ps := String.intercalate "&" (ps.map (fun kv => kv.1 ++ "=" ++ kv.2))
  uuid1 n := ⟨List.replicate (n + 1) 'd'⟩
  uuid4 n := ⟨List.replicate (n + 1) 's'⟩
  formatTime t := t.getD "now"
  xmlEnd doc := String.join (doc.childNodes.map (fun n => "<" ++ n.tag.getD "" ++ "/>"))

/-- A stitched channel with a slug, a parsable stream URL and one timeline item. -/
def sampleChannel : Channel :=
  { slug := .string "pluto-news", _id := some "5a4d", id := none,
    name := .string "Pluto News",
    isStitched := true,
    stitched := some { urls := some [{ url := some sampleTemplate }] },
    colorLogoPNG := none, category := none,
    timelines := some [{ start := some "2024-01-01T10:00:00.000Z",
                         stop := some "2024-01-01T11:00:00.000Z",
                         title := some "Headlines", episode := none }] }

/-- A configuration with the default interval of 30 minutes and window of 24 hours. -/
def sampleConfig : Config :=
  { UPDATE_INTERVAL := 30, EPG_HOURS := 24 }

/-- A fetch environment without a cache file whose request is answered by `http`; a body is
parsed as the one-channel list `[sampleChannel]`. -/
def sampleFetch (http : HttpResult) : FetchEnv :=
  { cacheFile := none, nowMs := 1700000000000, http := http,
    parseJSON := fun _ => .ok (Payload.ofChannels [sampleChannel]),
    writeCache := fun _ => .ok () }

/-- An update environment: the request is answered by `http`, the favorites file holds
`favorites`, and the backup writes succeed unless `writesFail`. -/
def sampleEnv (http : HttpResult) (favorites : List String) (writesFail : Bool) : UpdateEnv :=
  { fetch := sampleFetch http, favorites := favorites, now := "2024-01-01 10:00:00",
    writeFileSync := fun _ _ =>
      if writesFail then .error (.error "EACCES: permission denied") else .ok () }

/-- An update environment without favorites whose request is answered with status 200 and
a body that parses to `payload`; the backup writes succeed. -/
def payloadEnv (payload : Payload) : UpdateEnv :=
  { fetch := { cacheFile := none, nowMs := 1700000000000, http := .response 200 "",
               parseJSON := fun _ => .ok payload, writeCache := fun _ => .ok () },
    favorites := [], now := "2024-01-01 10:00:00", writeFileSync := fun _ _ => .ok () }

/-- A snapshot published by an earlier update. -/
def priorCachedData : CachedData :=
  { channels := Payload.ofChannels [namedChannel "Old"], m3u8 := "old playlist",
    epg := "old guide", lastUpdate := some "2023-12-31 09:00:00", isUpdating := false }

/-- A fetch environment whose cache file was modified at `mtimeMs`, is read `ageMs`
milliseconds later and holds the one-channel list `[sampleChannel]`. -/
def cachedFetch (mtimeMs ageMs : Int) : FetchEnv :=
  { cacheFile := some { mtimeMs := mtimeMs, json := some (Payload.ofChannels [sampleChannel]) },
    nowMs := mtimeMs + ageMs, http := .response 200 "[]",
    parseJSON := fun _ => .ok (.array []), writeCache := fun _ => .ok () }

/-- The single-flight invariant: at most one update sequence is in flight, and the flag
`isUpdating` is set exactly when one is. -/
def SingleFlight (s : Server) : Prop :=
  s.inFlight.length ≤ 1 ∧ (s.cachedData.isUpdating = true ↔ s.inFlight.length = 1)


/-! ## Theorems -/

theorem lowerEquals_iff (toLowerCase : String → String) (field : Option String)
    (fav : String) :
    lowerEquals toLowerCase field (toLowerCase fav) = true ↔
      termHitsId toLowerCase fav field := by
  cases field with
  | none => simp [lowerEquals, termHitsId]
  | some s => simp [lowerEquals, termHitsId]

theorem includes_self (s : String) : includes s s = true := by
  simp [includes]

theorem text_hit_iff (toLowerCase : String → String) (field : Option String)
    (fav : String) :
    (lowerEquals toLowerCase field (toLowerCase fav) = true ∨
        lowerIncludes toLowerCase field (toLowerCase fav) = true) ↔
      termHitsText toLowerCase fav field := by
  cases field with
  | none => simp [lowerEquals, lowerIncludes, termHitsText]
  | some s =>
    simp only [lowerEquals, lowerIncludes, termHitsText, Option.some.injEq, exists_eq_left',
      beq_iff_eq]
    constructor
    · rintro (h | h)
      · right; rw [h]; exact includes_self _
      · right; exact h
    · rintro (h | h)
      · right; rw [h]; exact includes_self _
      · right; exact h

theorem matchesTerm_iff (toLowerCase : String → String) (channel : Channel) (fav : String) :
    FavoritesFilter.matchesTerm toLowerCase channel fav = true ↔
      (termHitsText toLowerCase fav channel.slug.toOption ∨
        termHitsText toLowerCase fav channel.name.toOption ∨
        termHitsId toLowerCase fav channel._id ∨ termHitsId toLowerCase fav channel.id) := by
  rw [← text_hit_iff, ← text_hit_iff, ← lowerEquals_iff, ← lowerEquals_iff]
  simp only [FavoritesFilter.matchesTerm, Bool.or_eq_true]
  tauto

/-- C1 (amended): `FavoritesFilter.filter` accepts every channel when the favorites list is
empty; otherwise it accepts exactly the channels for which some term equals or is a
case-insensitive substring of the slug or the display name, or equals one of the id fields
`_id`, `id` once both are lower-cased.  With the list `["news"]` every channel named
"Evening News" is accepted and the channel known only by the name "Sports Hub" is rejected. -/
theorem favorites_filter_accepts_iff :
    (∀ (toLowerCase : String → String) (favorites : List String) (channel : Channel),
      (favorites = [] → FavoritesFilter.filter toLowerCase ⟨favorites⟩ channel = true) ∧
      (FavoritesFilter.filter toLowerCase ⟨favorites⟩ channel = true ↔
        acceptsLowerIds toLowerCase favorites channel)) ∧
    (∀ channel : Channel, channel.name = .string "Evening News" →
      FavoritesFilter.filter asciiLower ⟨["news"]⟩ channel = true) ∧
    FavoritesFilter.filter asciiLower ⟨["news"]⟩ (namedChannel "Sports Hub") = false := by
  refine ⟨?_, ?_, ?_⟩
  · intro toLowerCase favorites channel
    have key : FavoritesFilter.filter toLowerCase ⟨favorites⟩ channel = true ↔
        acceptsLowerIds toLowerCase favorites channel := by
      cases favorites with
      | nil => simp [FavoritesFilter.filter, FavoritesFilter.isEmpty, acceptsLowerIds]
      | cons f fs =>
        simp [FavoritesFilter.filter, FavoritesFilter.isEmpty, acceptsLowerIds,
          matchesTerm_iff]
    refine ⟨?_, key⟩
    intro h
    rw [key]
    exact Or.inl h
  · intro channel h
    have : FavoritesFilter.matchesTerm asciiLower channel "news" = true := by
      rw [matchesTerm_iff]
      right; left
      exact ⟨"Evening News", by rw [h]; rfl, Or.inr (by decide)⟩
    simp [FavoritesFilter.filter, FavoritesFilter.isEmpty, this]
  · decide

/-- C1 (as stated, refuted): with the favorites list `["ABC"]` the channel whose `_id` is
"abc" is accepted by `FavoritesFilter.filter`, although the term neither equals nor is a
substring of a slug or name and is not character-for-character equal to an id field. -/
theorem favorites_filter_exact_id_counterexample :
    FavoritesFilter.filter asciiLower ⟨["ABC"]⟩ (idChannel "abc") = true ∧
      ¬ acceptsExactIds asciiLower ["ABC"] (idChannel "abc") := by
  refine ⟨by decide, ?_⟩
  simp [acceptsExactIds, termHitsText, idChannel, Field.toOption]

/-! ### Playlist -/

theorem join_cons (s : String) (l : List String) :
    String.join (s :: l) = s ++ String.join l := by
  apply String.ext
  simp [String.data_join]

theorem m3uEntries_cons (rt : Runtime) (calls : Nat) (c : Channel) (rest : List Channel) :
    m3uEntries rt calls (c :: rest) =
      if !c.isStitched then m3uEntries rt calls rest
      else
        match m3uEntry rt c calls with
        | .ok e => e :: m3uEntries rt (calls + 1) rest
        | .error _ => m3uEntries rt (calls + 1) rest := by
  rw [m3uEntries]

theorem foldl_m3uStep (rt : Runtime) (channels : List Channel) (st : M3UState) :
    (channels.foldl (m3uStep rt) st).m3u8 =
      st.m3u8 ++ String.join ((m3uEntries rt st.calls channels).map M3UEntry.render) := by
  induction channels generalizing st with
  | nil => simp [m3uEntries, String.join]
  | cons c rest ih =>
    rw [List.foldl_cons, ih, m3uEntries_cons]
    cases hs : c.isStitched with
    | false => simp [m3uStep, hs]
    | true =>
      cases he : m3uEntry rt c st.calls with
      | error e => simp [m3uStep, hs, he]
      | ok e => simp [m3uStep, hs, he, join_cons, String.append_assoc]

theorem m3uEntry_ok_iff (rt : Runtime) (channel : Channel) (calls : Nat) :
    (∃ e, m3uEntry rt channel calls = .ok e) ↔ (streamTemplate rt channel).toBool = true := by
  unfold m3uEntry
  cases streamTemplate rt channel with
  | error e => simp [Except.toBool]
  | ok u => simp [Except.toBool]

theorem m3uEntry_eq (rt : Runtime) (channel : Channel) (calls : Nat) (e : M3UEntry)
    (h : m3uEntry rt channel calls = .ok e) :
    ∃ u, streamTemplate rt channel = .ok u ∧
      e = { tvgId := templateText channel.slug,
            tvgLogo := orElse (channel.colorLogoPNG.bind Logo.path) "",
            groupTitle := orElse channel.category "General",
            name := templateText channel.name,
            url := rt.href (rewriteURL rt u (rt.uuid1 calls) (rt.uuid4 calls)) } := by
  unfold m3uEntry at h
  cases hu : streamTemplate rt channel with
  | error err => rw [hu] at h; simp at h
  | ok u =>
    rw [hu] at h
    simp only [Except.ok.injEq] at h
    exact ⟨u, rfl, h.symm⟩

theorem qualifies_of_entry (rt : Runtime) (c : Channel) (calls : Nat) (e : M3UEntry)
    (hs : c.isStitched = true) (he : m3uEntry rt c calls = .ok e) :
    qualifies rt c = true := by
  have := (m3uEntry_ok_iff rt c calls).1 ⟨e, he⟩
  simp [qualifies, hs, this]

theorem not_qualifies_of_error (rt : Runtime) (c : Channel) (calls : Nat) (err : JSError)
    (he : m3uEntry rt c calls = .error err) : qualifies rt c = false := by
  cases hq : qualifies rt c with
  | false => rfl
  | true =>
    have hq2 : c.isStitched = true ∧ (streamTemplate rt c).toBool = true := by
      simpa [qualifies] using hq
    obtain ⟨e, he2⟩ := (m3uEntry_ok_iff rt c calls).2 hq2.2
    rw [he] at he2
    simp at he2

theorem m3uEntries_forall₂ (rt : Runtime) (channels : List Channel) (calls : Nat) :
    List.Forall₂
      (fun channel e => channel.isStitched = true ∧ ∃ k, m3uEntry rt channel k = .ok e)
      (channels.filter (qualifies rt)) (m3uEntries rt calls channels) := by
  induction channels generalizing calls with
  | nil => simp [m3uEntries]
  | cons c rest ih =>
    rw [m3uEntries_cons]
    cases hs : c.isStitched with
    | false => simpa [List.filter_cons, qualifies, hs] using ih calls
    | true =>
      cases he : m3uEntry rt c calls with
      | error err =>
        have hq := not_qualifies_of_error rt c calls err he
        simpa [List.filter_cons, hq] using ih (calls + 1)
      | ok e =>
        have hq := qualifies_of_entry rt c calls e hs he
        simp only [List.filter_cons, hq, if_true, Bool.not_true, Bool.false_eq_true, if_false]
        exact List.Forall₂.cons ⟨hs, calls, he⟩ (ih (calls + 1))

theorem m3uEntries_of_none_qualify (rt : Runtime) (channels : List Channel) (calls : Nat)
    (h : ∀ c ∈ channels, qualifies rt c = false) : m3uEntries rt calls channels = [] := by
  induction channels generalizing calls with
  | nil => simp [m3uEntries]
  | cons c rest ih =>
    have hrest : ∀ c ∈ rest, qualifies rt c = false :=
      fun x hx => h x (List.mem_cons_of_mem _ hx)
    rw [m3uEntries_cons]
    cases hs : c.isStitched with
    | false => simpa using ih calls hrest
    | true =>
      cases he : m3uEntry rt c calls with
      | error err => simpa using ih (calls + 1) hrest
      | ok e =>
        have hq := qualifies_of_entry rt c calls e hs he
        rw [h c (List.mem_cons_self _ _)] at hq
        simp at hq

theorem streamTemplate_ok_iff (rt : Runtime) (c : Channel) (u : URL) :
    streamTemplate rt c = .ok u ↔
      ∃ (st : Stitched) (first : StitchedUrl) (rest : List StitchedUrl) (s : String),
        c.stitched = some st ∧ st.urls = some (first :: rest) ∧ first.url = some s ∧
          rt.parseURL s = some u := by
  unfold streamTemplate
  cases hst : c.stitched with
  | none => simp
  | some st =>
    cases hurls : st.urls with
    | none => simp [hurls]
    | some l =>
      cases l with
      | nil => simp [hurls]
      | cons first rest =>
        cases hurl : first.url with
        | none => simp [hurls, hurl]
        | some s =>
          cases hp : rt.parseURL s with
          | none => simp [hurls, hurl, hp]
          | some v => simp [hurls, hurl, hp]

theorem qualifies_eq (rt : Runtime) (c : Channel) :
    qualifies rt c =
      (c.isStitched &&
        ((((c.stitched.bind Stitched.urls).bind List.head?).bind StitchedUrl.url).bind
          rt.parseURL).isSome) := by
  unfold qualifies streamTemplate
  cases hst : c.stitched with
  | none => simp [Except.toBool]
  | some st =>
    cases hurls : st.urls with
    | none => simp [Except.toBool, hurls]
    | some l =>
      cases l with
      | nil => simp [Except.toBool, hurls]
      | cons first rest =>
        cases hurl : first.url with
        | none => simp [Except.toBool, hurls, hurl]
        | some s =>
          cases hp : rt.parseURL s with
          | none => simp [Except.toBool, hurls, hurl, hp]
          | some v => simp [Except.toBool, hurls, hurl, hp]

theorem foldlM_m3uStepElement (rt : Runtime) (channels : List Channel) (st : M3UState) :
    (channels.map Element.channel).foldlM (m3uStepElement rt) st =
      .ok (channels.foldl (m3uStep rt) st) := by
  induction channels generalizing st with
  | nil => rfl
  | cons c rest ih =>
    simp only [List.map_cons, List.foldlM_cons, List.foldl_cons, m3uStepElement]
    exact ih _

theorem generateM3U8Payload_ofChannels (rt : Runtime) (channels : List Channel) :
    generateM3U8Payload rt (Payload.ofChannels channels) = .ok (generateM3U8 rt channels) := by
  simp [generateM3U8Payload, Payload.ofChannels, foldlM_m3uStepElement, generateM3U8]

/-- C3: on every channel list `generateM3U8` returns, without throwing, the header line
`#EXTM3U` followed by one entry for each channel that is stitched and whose string at
`stitched.urls[0].url` the URL parser accepts, in input order.  An entry is the metadata
line of the channel (`tvg-id`, `tvg-logo`, `group-title`, name), a line break, the
rewritten URL and two line breaks.  Every other channel contributes nothing, so a list
without a qualifying channel yields the header alone. -/
theorem generateM3U8_header_and_entries (rt : Runtime) (channels : List Channel) :
    generateM3U8Payload rt (Payload.ofChannels channels) = .ok (generateM3U8 rt channels) ∧
    (∃ entries : List String,
      generateM3U8 rt channels = "#EXTM3U\n" ++ String.join entries ∧
      List.Forall₂
        (fun channel entry =>
          ∃ (calls : Nat) (st : Stitched) (first : StitchedUrl) (rest : List StitchedUrl)
            (s : String) (u : URL),
            channel.isStitched = true ∧ channel.stitched = some st ∧
            st.urls = some (first :: rest) ∧ first.url = some s ∧ rt.parseURL s = some u ∧
            entry =
              "#EXTINF:0 tvg-id=\"" ++ templateText channel.slug ++
              "\" tvg-logo=\"" ++ orElse (channel.colorLogoPNG.bind Logo.path) "" ++
              "\" group-title=\"" ++ orElse channel.category "General" ++
              "\", " ++ templateText channel.name ++ "\n" ++
              rt.href (rewriteURL rt u (rt.uuid1 calls) (rt.uuid4 calls)) ++ "\n\n")
        (channels.filter (fun c => c.isStitched &&
          ((((c.stitched.bind Stitched.urls).bind List.head?).bind StitchedUrl.url).bind
            rt.parseURL).isSome))
        entries) ∧
    ((∀ c ∈ channels, (c.isStitched &&
        ((((c.stitched.bind Stitched.urls).bind List.head?).bind StitchedUrl.url).bind
          rt.parseURL).isSome) = false) →
      generateM3U8 rt channels = "#EXTM3U\n") := by
  have hfilter : (fun c : Channel => c.isStitched &&
      ((((c.stitched.bind Stitched.urls).bind List.head?).bind StitchedUrl.url).bind
        rt.parseURL).isSome) = qualifies rt := by
    funext c
    exact (qualifies_eq rt c).symm
  refine ⟨generateM3U8Payload_ofChannels rt channels, ?_, ?_⟩
  · refine ⟨(m3uEntries rt 0 channels).map M3UEntry.render,
      by simp [generateM3U8, foldl_m3uStep], ?_⟩
    rw [hfilter, List.forall₂_map_right_iff]
    refine List.Forall₂.imp ?_ (m3uEntries_forall₂ rt channels 0)
    rintro c e ⟨hs, k, hk⟩
    obtain ⟨u, hu, he⟩ := m3uEntry_eq rt c k e hk
    obtain ⟨st, first, rest, s, h1, h2, h3, h4⟩ := (streamTemplate_ok_iff rt c u).1 hu
    refine ⟨k, st, first, rest, s, u, hs, h1, h2, h3, h4, ?_⟩
    rw [he]
    simp [M3UEntry.render, String.append_assoc]
  · intro hnone
    have h := m3uEntries_of_none_qualify rt channels 0
      (fun c hc => by rw [qualifies_eq]; exact hnone c hc)
    simp [generateM3U8, foldl_m3uStep, h, String.join]

/-! ### Query rewriting -/

theorem setFirst_filter_other (q : String → Bool) (name value : String)
    (hq : q name = false) (params : List (String × String)) :
    (setFirst params name value).filter (fun kv => q kv.1) =
      params.filter (fun kv => q kv.1) := by
  induction params with
  | nil => simp [setFirst]
  | cons kv rest ih =>
    obtain ⟨k, v⟩ := kv
    by_cases hk : k = name
    · subst hk
      simp only [setFirst, if_true, List.filter_cons, hq, Bool.false_eq_true, if_false,
        List.filter_filter]
      apply List.filter_congr
      intro x _
      by_cases hx : x.1 = k
      · simp [hx, hq]
      · simp [hx]
    · simp only [setFirst, hk, if_false, List.filter_cons, ih]

theorem setFirst_filter_same (name value : String) (params : List (String × String))
    (h : params.any (fun kv => kv.1 == name) = true) :
    (setFirst params name value).filter (fun kv => kv.1 == name) = [(name, value)] := by
  induction params with
  | nil => simp at h
  | cons kv rest ih =>
    obtain ⟨k, v⟩ := kv
    by_cases hk : k = name
    · subst hk
      simp [setFirst, List.filter_cons, List.filter_filter]
    · have hrest : rest.any (fun kv => kv.1 == name) = true := by
        simpa [hk] using h
      simp [setFirst, hk, List.filter_cons, ih hrest]

theorem paramsSet_filter_other (q : String → Bool) (name value : String)
    (hq : q name = false) (params : List (String × String)) :
    (paramsSet params name value).filter (fun kv => q kv.1) =
      params.filter (fun kv => q kv.1) := by
  unfold paramsSet
  split
  · exact setFirst_filter_other q name value hq params
  · simp [List.filter_append, hq]

theorem paramsSet_filter_same (name value : String) (params : List (String × String)) :
    (paramsSet params name value).filter (fun kv => kv.1 == name) = [(name, value)] := by
  unfold paramsSet
  split
  · rename_i h
    exact setFirst_filter_same name value params h
  · rename_i h
    have hnone : params.filter (fun kv => kv.1 == name) = [] := by
      rw [List.filter_eq_nil_iff]
      intro a ha hcontra
      exact h (List.any_eq_true.2 ⟨a, ha, hcontra⟩)
    simp [List.filter_append, hnone]

theorem foldl_paramsSet_filter_other (q : String → Bool) (kvs : List (String × String))
    (hq : ∀ kv ∈ kvs, q kv.1 = false) (params : List (String × String)) :
    (kvs.foldl (fun acc kv => paramsSet acc kv.1 kv.2) params).filter (fun kv => q kv.1) =
      params.filter (fun kv => q kv.1) := by
  induction kvs generalizing params with
  | nil => rfl
  | cons kv rest ih =>
    rw [List.foldl_cons, ih (fun x hx => hq x (List.mem_cons_of_mem _ hx)),
      paramsSet_filter_other q kv.1 kv.2 (hq kv (List.mem_cons_self _ _))]

theorem foldl_paramsSet_filter_same (kvs : List (String × String))
    (hnd : (kvs.map Prod.fst).Nodup) (params : List (String × String))
    (kv : String × String) (hkv : kv ∈ kvs) :
    (kvs.foldl (fun acc kv => paramsSet acc kv.1 kv.2) params).filter
      (fun p => p.1 == kv.1) = [kv] := by
  induction kvs generalizing params with
  | nil => simp at hkv
  | cons hd rest ih =>
    rw [List.map_cons, List.nodup_cons] at hnd
    rw [List.foldl_cons]
    rcases List.mem_cons.1 hkv with h | h
    · subst h
      rw [foldl_paramsSet_filter_other (fun k => k == kv.1) rest _ _]
      · exact paramsSet_filter_same kv.1 kv.2 params
      · intro x hx
        have : x.1 ≠ kv.1 := by
          intro hx1
          exact hnd.1 (hx1 ▸ List.mem_map_of_mem Prod.fst hx)
        simpa using this
    · exact ih hnd.2 _ h

theorem identityParams_nodup (deviceId sid : String) :
    ((identityParams deviceId sid).map Prod.fst).Nodup := by
  simp [identityParams]

theorem identityParams_keys (deviceId sid : String) :
    (identityParams deviceId sid).map Prod.fst = identityKeys := by
  simp [identityParams, identityKeys]

/-! ### Guide -/

theorem foldl_epgChannelStep (channels : List Channel) (st : EPGState) :
    (channels.foldl epgChannelStep st).root =
      st.root ++ (channels.filter (fun c => c.isStitched)).map channelNode := by
  induction channels generalizing st with
  | nil => simp
  | cons c rest ih =>
    rw [List.foldl_cons, ih]
    cases hs : c.isStitched <;> simp [epgChannelStep, hs, List.filter_cons]

theorem foldl_epgTimelineStep (rt : Runtime) (channel : Channel)
    (timelines : List Programme) (st : EPGState) :
    (timelines.foldl (epgTimelineStep rt channel) st).root =
      st.root ++ timelines.map (programmeNode rt channel) := by
  induction timelines generalizing st with
  | nil => simp
  | cons p rest ih =>
    rw [List.foldl_cons, ih]
    simp [epgTimelineStep]

theorem epgProgrammeStep_root (rt : Runtime) (st : EPGState) (channel : Channel) :
    (epgProgrammeStep rt st channel).root = st.root ++ programmeNodesOf rt channel := by
  unfold epgProgrammeStep programmeNodesOf
  cases hs : channel.isStitched with
  | false => simp
  | true =>
    cases ht : channel.timelines with
    | none => simp
    | some timelines => simp [foldl_epgTimelineStep]

theorem foldl_epgProgrammeStep (rt : Runtime) (channels : List Channel) (st : EPGState) :
    (channels.foldl (epgProgrammeStep rt) st).root =
      st.root ++ channels.flatMap (programmeNodesOf rt) := by
  induction channels generalizing st with
  | nil => simp
  | cons c rest ih =>
    rw [List.foldl_cons, ih, epgProgrammeStep_root]
    simp [List.flatMap_cons]

theorem generateEPGDoc_childNodes (rt : Runtime) (channels : List Channel) :
    (generateEPGDoc rt channels).childNodes =
      (channels.filter (fun c => c.isStitched)).map channelNode ++
        channels.flatMap (programmeNodesOf rt) := by
  simp [generateEPGDoc, XNode.childNodes, foldl_epgProgrammeStep, foldl_epgChannelStep]

theorem channelNode_tag (c : Channel) : (channelNode c).tag = some "channel" := rfl

theorem channelNode_id (c : Channel) : (channelNode c).attr "id" = c.slug.toOption := by
  cases hs : c.slug.toOption <;> simp [channelNode, XNode.attr, eleAttributes, hs]

theorem programmeNode_tag (rt : Runtime) (c : Channel) (p : Programme) :
    (programmeNode rt c p).tag = some "programme" := rfl

theorem programmeNode_channel (rt : Runtime) (c : Channel) (p : Programme) :
    (programmeNode rt c p).attr "channel" = c.slug.toOption := by
  cases hs : c.slug.toOption <;>
    simp [programmeNode, XNode.attr, eleAttributes, hs, List.find?]

theorem mem_programmeNodesOf (rt : Runtime) (c : Channel) (n : XNode)
    (h : n ∈ programmeNodesOf rt c) :
    c.isStitched = true ∧ n.tag = some "programme" ∧ n.attr "channel" = c.slug.toOption := by
  unfold programmeNodesOf at h
  cases hs : c.isStitched with
  | false => simp [hs] at h
  | true =>
    simp only [hs, if_true, List.mem_map] at h
    obtain ⟨p, _, rfl⟩ := h
    exact ⟨rfl, programmeNode_tag rt c p, programmeNode_channel rt c p⟩

theorem no_channel_after_programme (ds ps : List XNode)
    (hd : ∀ d ∈ ds, d.tag = some "channel") (hp : ∀ p ∈ ps, p.tag = some "programme")
    (i j : Nat) (hij : i < j) (n m : XNode)
    (hi : (ds ++ ps)[i]? = some n) (hn : n.tag = some "programme")
    (hj : (ds ++ ps)[j]? = some m) : m.tag = some "programme" := by
  have hlen : ds.length ≤ i := by
    by_contra hlt
    push_neg at hlt
    rw [List.getElem?_append_left hlt] at hi
    have := hd n (List.getElem?_mem hi)
    rw [hn] at this
    simp at this
  rw [List.getElem?_append_right (by omega)] at hj
  exact hp m (List.getElem?_mem hj)

/-- C4: the children of the root of the document built by `generateEPG` are one `channel`
node (with `id` the slug) for each stitched channel, in input order, followed by one
`programme` node for each timeline item of each stitched channel that has a `timelines`
array, in channel order and then timeline order; no `channel` node comes after a
`programme` node. -/
theorem generateEPG_channels_then_programmes (rt : Runtime) (channels : List Channel) :
    generateEPG rt channels = rt.xmlEnd (generateEPGDoc rt channels) ∧
    (generateEPGDoc rt channels).childNodes =
      (channels.filter (fun c => c.isStitched)).map channelNode ++
        channels.flatMap (fun c =>
          if c.isStitched then (c.timelines.getD []).map (programmeNode rt c) else []) ∧
    (∀ c : Channel, (channelNode c).tag = some "channel" ∧ (channelNode c).attr "id" = c.slug.toOption) ∧
    (∀ (c : Channel) (p : Programme), (programmeNode rt c p).tag = some "programme") ∧
    (∀ (i j : Nat) (n m : XNode), i < j →
      (generateEPGDoc rt channels).childNodes[i]? = some n → n.tag = some "programme" →
      (generateEPGDoc rt channels).childNodes[j]? = some m → m.tag ≠ some "channel") := by
  refine ⟨rfl, generateEPGDoc_childNodes rt channels,
    fun c => ⟨channelNode_tag c, channelNode_id c⟩, fun c p => programmeNode_tag rt c p, ?_⟩
  intro i j n m hij hi hn hj
  rw [generateEPGDoc_childNodes] at hi hj
  have hm := no_channel_after_programme _ _ (by
      intro d hd
      obtain ⟨c, _, rfl⟩ := List.mem_map.1 hd
      exact channelNode_tag c) (by
      intro p hp
      obtain ⟨c, _, hc⟩ := List.mem_flatMap.1 hp
      exact (mem_programmeNodesOf rt c p hc).2.1) i j hij n m hi hn hj
  rw [hm]
  decide

theorem mem_m3uEntries (rt : Runtime) (channels : List Channel) (calls : Nat) (e : M3UEntry)
    (h : e ∈ m3uEntries rt calls channels) :
    ∃ c ∈ channels, c.isStitched = true ∧ e.tvgId = templateText c.slug := by
  induction channels generalizing calls with
  | nil => simp [m3uEntries] at h
  | cons c rest ih =>
    rw [m3uEntries_cons] at h
    cases hs : c.isStitched with
    | false =>
      simp only [hs, Bool.not_false, if_true] at h
      obtain ⟨c2, hc2, hprop⟩ := ih calls h
      exact ⟨c2, List.mem_cons_of_mem _ hc2, hprop⟩
    | true =>
      simp only [hs, Bool.not_true, Bool.false_eq_true, if_false] at h
      cases he : m3uEntry rt c calls with
      | error err =>
        rw [he] at h
        obtain ⟨c2, hc2, hprop⟩ := ih (calls + 1) h
        exact ⟨c2, List.mem_cons_of_mem _ hc2, hprop⟩
      | ok e2 =>
        rw [he] at h
        rcases List.mem_cons.1 h with h1 | h1
        · subst h1
          obtain ⟨u, _, heq⟩ := m3uEntry_eq rt c calls e he
          exact ⟨c, List.mem_cons_self _ _, hs, by rw [heq]⟩
        · obtain ⟨c2, hc2, hprop⟩ := ih (calls + 1) h1
          exact ⟨c2, List.mem_cons_of_mem _ hc2, hprop⟩

/-- C10: when every channel of the list carries a slug, the playlist and the guide built
from the list agree on identifiers: the `tvg-id` of every playlist entry and the `channel`
attribute of every `programme` node is the `id` of some `channel` node of the guide. -/
theorem playlist_and_guide_ids_agree (rt : Runtime) (channels : List Channel)
    (hslug : ∀ c ∈ channels, c.slug.toOption.isSome = true) :
    generateM3U8 rt channels =
        "#EXTM3U\n" ++ String.join ((m3uEntries rt 0 channels).map M3UEntry.render) ∧
    (∀ e ∈ m3uEntries rt 0 channels,
      ∃ d ∈ (generateEPGDoc rt channels).childNodes,
        d.tag = some "channel" ∧ d.attr "id" = some e.tvgId) ∧
    (∀ p ∈ (generateEPGDoc rt channels).childNodes, p.tag = some "programme" →
      ∃ d ∈ (generateEPGDoc rt channels).childNodes,
        d.tag = some "channel" ∧ (p.attr "channel").isSome = true ∧
          d.attr "id" = p.attr "channel") := by
  have hdecl : ∀ c ∈ channels, c.isStitched = true →
      channelNode c ∈ (generateEPGDoc rt channels).childNodes := by
    intro c hc hs
    rw [generateEPGDoc_childNodes]
    exact List.mem_append_left _
      (List.mem_map_of_mem _ (List.mem_filter.2 ⟨hc, by simpa using hs⟩))
  refine ⟨by simp [generateM3U8, foldl_m3uStep], ?_, ?_⟩
  · intro e he
    obtain ⟨c, hc, hs, hid⟩ := mem_m3uEntries rt channels 0 e he
    refine ⟨channelNode c, hdecl c hc hs, channelNode_tag c, ?_⟩
    rw [channelNode_id, hid]
    have hsome := hslug c hc
    cases hsl : c.slug <;> simp [hsl, Field.toOption, templateText] at hsome ⊢
  · intro p hp htag
    rw [generateEPGDoc_childNodes] at hp
    rcases List.mem_append.1 hp with h | h
    · obtain ⟨c, _, rfl⟩ := List.mem_map.1 h
      rw [channelNode_tag] at htag
      simp at htag
    · obtain ⟨c, hc, hpc⟩ := List.mem_flatMap.1 h
      obtain ⟨hs, _, hch⟩ := mem_programmeNodesOf rt c p hpc
      refine ⟨channelNode c, hdecl c hc hs, channelNode_tag c, ?_, ?_⟩
      · rw [hch]; exact hslug c hc
      · rw [channelNode_id, hch]

/-- C10 at a sample input: the one-channel list `[sampleChannel]`, whose channel carries the
slug `pluto-news`. -/
theorem playlist_and_guide_ids_agree_witness :
    (∀ c ∈ [sampleChannel], c.slug.toOption.isSome = true) ∧
    (∀ e ∈ m3uEntries sampleRuntime 0 [sampleChannel],
      ∃ d ∈ (generateEPGDoc sampleRuntime [sampleChannel]).childNodes,
        d.tag = some "channel" ∧ d.attr "id" = some e.tvgId) :=
  ⟨by decide, (playlist_and_guide_ids_agree sampleRuntime [sampleChannel] (by decide)).2.1⟩

theorem rewriteParams_spec (params : List (String × String)) (deviceId sid : String) :
    (∀ kv ∈ identityParams deviceId sid,
      (rewriteParams params deviceId sid).filter (fun p => p.1 == kv.1) = [kv]) ∧
    (rewriteParams params deviceId sid).filter (fun p => !identityKeys.contains p.1) =
      params.filter (fun p => !identityKeys.contains p.1) := by
  refine ⟨?_, ?_⟩
  · intro kv hkv
    exact foldl_paramsSet_filter_same _ (identityParams_nodup _ _) _ kv hkv
  · refine foldl_paramsSet_filter_other (fun k => !identityKeys.contains k) _ ?_ _
    intro kv hkv
    have hk : kv.1 ∈ identityKeys := by
      rw [← identityParams_keys deviceId sid]
      exact List.mem_map_of_mem Prod.fst hkv
    simpa using hk

/-- C9: the playlist `generateM3U8` returns is the header followed by one entry per
qualifying channel, and the URL in the entry of a channel whose template parses to `u` is
the text of a URL `out` that has the scheme, host and path of `u` and whose query is the
serialisation of a parameter list in which each of the seventeen client-identity names
occurs exactly once, with its fixed constant or, for `deviceId` and `sid`, the identifier
generated for this channel, whatever the template held under that name, while the
parameters of the template with other names are kept with their values in their order. -/
theorem emitted_url_identity_params (rt : Runtime) (channels : List Channel) :
    ∃ entries : List String,
      generateM3U8 rt channels = "#EXTM3U\n" ++ String.join entries ∧
      List.Forall₂
        (fun channel entry =>
          ∃ (calls : Nat) (st : Stitched) (first : StitchedUrl) (rest : List StitchedUrl)
            (s : String) (u out : URL) (params : List (String × String)),
            channel.stitched = some st ∧ st.urls = some (first :: rest) ∧
            first.url = some s ∧ rt.parseURL s = some u ∧
            entry =
              "#EXTINF:0 tvg-id=\"" ++ templateText channel.slug ++
              "\" tvg-logo=\"" ++ orElse (channel.colorLogoPNG.bind Logo.path) "" ++
              "\" group-title=\"" ++ orElse channel.category "General" ++
              "\", " ++ templateText channel.name ++ "\n" ++ rt.href out ++ "\n\n" ∧
            out.protocol = u.protocol ∧ out.host = u.host ∧ out.pathname = u.pathname ∧
            out.search = "?" ++ rt.serializeQuery params ∧
            (∀ kv ∈ [("advertisingId", ""), ("appName", "web"), ("appVersion", "unknown"),
                ("appStoreUrl", ""), ("architecture", ""), ("buildVersion", ""),
                ("clientTime", "0"), ("deviceDNT", "0"), ("deviceId", rt.uuid1 calls),
                ("deviceMake", "Chrome"), ("deviceModel", "web"), ("deviceType", "web"),
                ("deviceVersion", "unknown"), ("includeExtendedEvents", "false"),
                ("sid", rt.uuid4 calls), ("userId", ""), ("serverSideAds", "true")],
              params.filter (fun p => p.1 == kv.1) = [kv]) ∧
            params.filter (fun p =>
                !(List.contains ["advertisingId", "appName", "appVersion", "appStoreUrl",
                  "architecture", "buildVersion", "clientTime", "deviceDNT", "deviceId",
                  "deviceMake", "deviceModel", "deviceType", "deviceVersion",
                  "includeExtendedEvents", "sid", "userId", "serverSideAds"] p.1)) =
              (rt.parseQuery u.search).filter (fun p =>
                !(List.contains ["advertisingId", "appName", "appVersion", "appStoreUrl",
                  "architecture", "buildVersion", "clientTime", "deviceDNT", "deviceId",
                  "deviceMake", "deviceModel", "deviceType", "deviceVersion",
                  "includeExtendedEvents", "sid", "userId", "serverSideAds"] p.1)))
        (channels.filter (fun c => c.isStitched &&
          ((((c.stitched.bind Stitched.urls).bind List.head?).bind StitchedUrl.url).bind
            rt.parseURL).isSome))
        entries := by
  have hfilter : (fun c : Channel => c.isStitched &&
      ((((c.stitched.bind Stitched.urls).bind List.head?).bind StitchedUrl.url).bind
        rt.parseURL).isSome) = qualifies rt := by
    funext c
    exact (qualifies_eq rt c).symm
  refine ⟨(m3uEntries rt 0 channels).map M3UEntry.render,
    by simp [generateM3U8, foldl_m3uStep], ?_⟩
  rw [hfilter, List.forall₂_map_right_iff]
  refine List.Forall₂.imp ?_ (m3uEntries_forall₂ rt channels 0)
  rintro c e ⟨_, k, hk⟩
  obtain ⟨u, hu, he⟩ := m3uEntry_eq rt c k e hk
  obtain ⟨st, first, rest, s, h1, h2, h3, h4⟩ := (streamTemplate_ok_iff rt c u).1 hu
  obtain ⟨hsame, hother⟩ :=
    rewriteParams_spec (rt.parseQuery u.search) (rt.uuid1 k) (rt.uuid4 k)
  refine ⟨k, st, first, rest, s, u, rewriteURL rt u (rt.uuid1 k) (rt.uuid4 k),
    rewriteParams (rt.parseQuery u.search) (rt.uuid1 k) (rt.uuid4 k),
    h1, h2, h3, h4, ?_, rfl, rfl, rfl, rfl, hsame, hother⟩
  rw [he]
  simp [M3UEntry.render, String.append_assoc]

set_option maxRecDepth 8000

/-- The playlist of the one-channel list `[sampleChannel]` under the sample runtime: the
repeated `deviceId` of the template is left once, `sid` is replaced, `terminate` is kept
and the fifteen other names are appended in source order. -/
theorem generateM3U8_sample :
    generateM3U8 sampleRuntime [sampleChannel] =
      "#EXTM3U\n#EXTINF:0 tvg-id=\"pluto-news\" tvg-logo=\"\" group-title=\"General\", " ++
      "Pluto News\nhttps://stitcher.pluto.tv/hls/5a4d/master.m3u8?deviceId=d&terminate=false" ++
      "&sid=s&advertisingId=&appName=web&appVersion=unknown&appStoreUrl=&architecture=" ++
      "&buildVersion=&clientTime=0&deviceDNT=0&deviceMake=Chrome&deviceModel=web" ++
      "&deviceType=web&deviceVersion=unknown&includeExtendedEvents=false&userId=" ++
      "&serverSideAds=true\n\n" := by
  rfl

/-! ### Cache freshness -/

theorem requestAPI_requested (env : FetchEnv) : (requestAPI env).requested = true := by
  unfold requestAPI
  split
  · rfl
  · split
    · rfl
    · split
      · rfl
      · split <;> rfl

theorem grabJSON_cache_hit_iff (cfg : Config) (env : FetchEnv) (file : CacheFile)
    (data : Payload) (hfile : env.cacheFile = some file) (hjson : file.json = some data) :
    ((grabJSON cfg env).settled = .ok data ∧ (grabJSON cfg env).requested = false) ↔
      (cacheAge env.nowMs file.mtimeMs).lt (Double.ofInt cfg.UPDATE_INTERVAL) = true := by
  cases hage : (cacheAge env.nowMs file.mtimeMs).lt (Double.ofInt cfg.UPDATE_INTERVAL) with
  | true => simp [grabJSON, hfile, hjson, hage]
  | false =>
    have hg : grabJSON cfg env = requestAPI env := by
      simp [grabJSON, hfile, hage]
    simp [hg, requestAPI_requested]

/-- C8 (the code at the failing input): with `Date.now()` = 2147483648002, a cache file
modified at 2147481848002 and an interval of 30 minutes, the age of the file is exactly
30 minutes (1800000 ms), yet the binary64 arithmetic of `grabJSON` yields an age below 30
and the cached payload is returned without an HTTP request.  For a file modified at
1700000000000 the same age makes the request, and an age shorter by one millisecond serves
the cache.  In general the cache is served exactly when the age computed in binary64 is
below the interval. -/
theorem grabJSON_serves_cache_at_exact_interval :
    (2147483648002 : Int) - 2147481848002 = 60000 * sampleConfig.UPDATE_INTERVAL ∧
    (cacheAge 2147483648002 2147481848002).lt (Double.ofInt sampleConfig.UPDATE_INTERVAL) =
      true ∧
    (cachedFetch 2147481848002 1800000).nowMs = 2147483648002 ∧
    (grabJSON sampleConfig (cachedFetch 2147481848002 1800000)).requested = false ∧
    (grabJSON sampleConfig (cachedFetch 2147481848002 1800000)).settled =
      .ok (Payload.ofChannels [sampleChannel]) ∧
    (grabJSON sampleConfig (cachedFetch 1700000000000 1800000)).requested = true ∧
    (grabJSON sampleConfig (cachedFetch 1700000000000 1799999)).requested = false ∧
    (∀ (cfg : Config) (env : FetchEnv) (file : CacheFile) (data : Payload),
      env.cacheFile = some file → file.json = some data →
      (((grabJSON cfg env).settled = .ok data ∧ (grabJSON cfg env).requested = false) ↔
        (cacheAge env.nowMs file.mtimeMs).lt (Double.ofInt cfg.UPDATE_INTERVAL) = true)) := by
  refine ⟨by decide, by decide, by decide, by decide, rfl, by decide, by decide, ?_⟩
  intro cfg env file data hfile hjson
  exact grabJSON_cache_hit_iff cfg env file data hfile hjson

/-! ### Update orchestration -/

theorem foldlM_epgChannelStepElement (channels : List Channel) (st : EPGState) :
    (channels.map Element.channel).foldlM epgChannelStepElement st =
      .ok (channels.foldl epgChannelStep st) := by
  induction channels generalizing st with
  | nil => rfl
  | cons c rest ih =>
    simp only [List.map_cons, List.foldlM_cons, List.foldl_cons, epgChannelStepElement]
    exact ih _

theorem foldlM_epgProgrammeStepElement (rt : Runtime) (channels : List Channel)
    (st : EPGState) :
    (channels.map Element.channel).foldlM (epgProgrammeStepElement rt) st =
      .ok (channels.foldl (epgProgrammeStep rt) st) := by
  induction channels generalizing st with
  | nil => rfl
  | cons c rest ih =>
    simp only [List.map_cons, List.foldlM_cons, List.foldl_cons, epgProgrammeStepElement]
    exact ih _

theorem generateEPGPayload_ofChannels (rt : Runtime) (channels : List Channel) :
    generateEPGPayload rt (Payload.ofChannels channels) = .ok (generateEPG rt channels) := by
  simp [generateEPGPayload, Payload.ofChannels, foldlM_epgChannelStepElement,
    foldlM_epgProgrammeStepElement, generateEPG, generateEPGDoc]

theorem updateBody_isUpdating (cfg : Config) (rt : Runtime) (env : UpdateEnv)
    (cachedData : CachedData) :
    (updateBody cfg rt env cachedData).cachedData.isUpdating = false := rfl

theorem updateBody_settled (cfg : Config) (rt : Runtime) (env : UpdateEnv)
    (cachedData : CachedData) :
    (updateBody cfg rt env cachedData).settled = .ok () := rfl

theorem updateData_settled (cfg : Config) (rt : Runtime) (env : UpdateEnv)
    (cachedData : CachedData) :
    (updateData cfg rt env cachedData).settled = .ok () := by
  unfold updateData
  split <;> rfl

theorem beginUpdate_busy (origin : Trigger) (s : Server)
    (hu : s.cachedData.isUpdating = true) : beginUpdate origin s = s := by
  simp [beginUpdate, hu]

theorem beginUpdate_idle (origin : Trigger) (s : Server)
    (hu : s.cachedData.isUpdating = false) :
    beginUpdate origin s =
      { cachedData := { s.cachedData with isUpdating := true },
        inFlight := s.inFlight ++ [origin], fetches := s.fetches + 1 } := by
  simp [beginUpdate, hu]

theorem idle_nothing_in_flight (s : Server) (h : SingleFlight s)
    (hu : s.cachedData.isUpdating = false) : s.inFlight = [] := by
  obtain ⟨hlen, hflag⟩ := h
  have hne : s.inFlight.length ≠ 1 := by
    intro h1
    have := hflag.2 h1
    rw [hu] at this
    simp at this
  exact List.length_eq_zero.1 (by omega)

theorem beginUpdate_singleFlight (origin : Trigger) (s : Server) (h : SingleFlight s) :
    SingleFlight (beginUpdate origin s) := by
  cases hu : s.cachedData.isUpdating with
  | true => rw [beginUpdate_busy origin s hu]; exact h
  | false =>
    rw [beginUpdate_idle origin s hu, idle_nothing_in_flight s h hu]
    simp [SingleFlight]

theorem step_singleFlight (cfg : Config) (rt : Runtime) (s : Server) (ev : Event)
    (h : SingleFlight s) : SingleFlight (step cfg rt s ev).1 := by
  cases ev with
  | tick => exact beginUpdate_singleFlight .timer s h
  | refresh =>
    cases hu : s.cachedData.isUpdating with
    | true => simpa [step, hu] using h
    | false => simpa [step, hu] using beginUpdate_singleFlight .manual s h
  | settle env =>
    cases hin : s.inFlight with
    | nil => simpa [step, hin] using h
    | cons origin rest =>
      have hrest : rest = [] := by
        have hlen := h.1
        rw [hin] at hlen
        simpa using hlen
      simp [step, hin, SingleFlight, hrest, updateBody_isUpdating]

theorem run_singleFlight (cfg : Config) (rt : Runtime) (events : List Event) :
    SingleFlight (run cfg rt events) := by
  have general : ∀ (evs : List Event) (s : Server), SingleFlight s →
      SingleFlight (evs.foldl (fun s ev => (step cfg rt s ev).1) s) := by
    intro evs
    induction evs with
    | nil => intro s hs; exact hs
    | cons ev rest ih =>
      intro s hs
      exact ih _ (step_singleFlight cfg rt s ev hs)
  exact general events initialServer (by simp [SingleFlight, initialServer, initialCachedData])

/-- C5: in every state reached from the initial state by any interleaving of timer ticks,
refresh requests and completions of the awaited fetch, at most one update sequence is in
flight and `isUpdating` is set exactly when one is.  While it is set, a tick changes
nothing and a refresh request changes nothing and is answered busy, so neither starts a
fetch; while it is clear, a trigger starts exactly one fetch; and when the update in
flight ends, with whatever outcome, `isUpdating` is clear and nothing is in flight. -/
theorem single_flight_invariant (cfg : Config) (rt : Runtime) (events : List Event) :
    (run cfg rt events).inFlight.length ≤ 1 ∧
    ((run cfg rt events).cachedData.isUpdating = true ↔
      (run cfg rt events).inFlight.length = 1) ∧
    ((run cfg rt events).cachedData.isUpdating = true →
      step cfg rt (run cfg rt events) .tick = (run cfg rt events, none) ∧
      step cfg rt (run cfg rt events) .refresh = (run cfg rt events, some .busy)) ∧
    ((run cfg rt events).cachedData.isUpdating = false →
      (step cfg rt (run cfg rt events) .tick).1.fetches = (run cfg rt events).fetches + 1 ∧
      (step cfg rt (run cfg rt events) .tick).1.inFlight = [.timer] ∧
      (step cfg rt (run cfg rt events) .refresh).1.fetches = (run cfg rt events).fetches + 1 ∧
      (step cfg rt (run cfg rt events) .refresh).1.inFlight = [.manual]) ∧
    (∀ env : UpdateEnv, (run cfg rt events).inFlight ≠ [] →
      (step cfg rt (run cfg rt events) (.settle env)).1.cachedData.isUpdating = false ∧
      (step cfg rt (run cfg rt events) (.settle env)).1.inFlight = []) := by
  obtain ⟨hlen, hflag⟩ := run_singleFlight cfg rt events
  refine ⟨hlen, hflag, ?_, ?_, ?_⟩
  · intro hu
    simp [step, beginUpdate, hu]
  · intro hu
    have h0 := idle_nothing_in_flight _ (run_singleFlight cfg rt events) hu
    simp [step, beginUpdate, hu, h0]
  · intro env hne
    cases hin : (run cfg rt events).inFlight with
    | nil => exact absurd hin hne
    | cons origin rest =>
      have hrest : rest = [] := by
        rw [hin] at hlen
        simpa using hlen
      simp [step, hin, hrest, updateBody_isUpdating]

theorem tryBlock_fetch_error (cfg : Config) (rt : Runtime) (env : UpdateEnv)
    (cachedData : CachedData) (e : JSError)
    (h : (grabJSON cfg env.fetch).settled = .error e) :
    tryBlock cfg rt env cachedData = (cachedData, some e) := by
  simp [tryBlock, h]

theorem favoritesFrom_isEmpty (favorites : List String) :
    (favoritesFrom favorites).isEmpty = decide (favorites = []) := by
  cases favorites <;> simp [favoritesFrom, FavoritesFilter.isEmpty]

theorem tryBlock_filter_error (cfg : Config) (rt : Runtime) (env : UpdateEnv)
    (cachedData : CachedData) (channels : Payload)
    (h : (grabJSON cfg env.fetch).settled = .ok channels)
    (hfail : env.favorites ≠ [] ∨ channels = .null) :
    ∃ message, tryBlock cfg rt env cachedData = (cachedData, some (.typeError message)) := by
  by_cases hfav : env.favorites = []
  · have hnull : channels = .null := by
      rcases hfail with h1 | h1
      · exact absurd hfav h1
      · exact h1
    subst hnull
    exact ⟨"Cannot read properties of null (reading length)",
      by simp [tryBlock, h, favoritesFrom_isEmpty, hfav, readLength]⟩
  · cases channels with
    | null =>
      exact ⟨"Cannot read properties of null (reading filter)",
        by simp [tryBlock, h, favoritesFrom_isEmpty, hfav, arrayFilter]⟩
    | notArray =>
      exact ⟨"channels.filter is not a function",
        by simp [tryBlock, h, favoritesFrom_isEmpty, hfav, arrayFilter]⟩
    | array elements =>
      exact ⟨"#<FavoritesFilter> is not a function",
        by simp [tryBlock, h, favoritesFrom_isEmpty, hfav, arrayFilter]⟩

theorem tryBlock_filter_error_array (cfg : Config) (rt : Runtime) (env : UpdateEnv)
    (cachedData : CachedData) (elements : List Element)
    (h : (grabJSON cfg env.fetch).settled = .ok (.array elements))
    (hfav : env.favorites ≠ []) :
    tryBlock cfg rt env cachedData =
      (cachedData, some (.typeError "#<FavoritesFilter> is not a function")) := by
  simp [tryBlock, h, favoritesFrom_isEmpty, hfav, arrayFilter]

theorem readLength_ok (channels : Payload) (h : channels ≠ .null) :
    readLength channels = .ok channels := by
  cases channels with
  | null => exact absurd rfl h
  | notArray => rfl
  | array elements => rfl

theorem tryBlock_playlist_error (cfg : Config) (rt : Runtime) (env : UpdateEnv)
    (cachedData : CachedData) (channels : Payload) (e : JSError)
    (h : (grabJSON cfg env.fetch).settled = .ok channels) (hfav : env.favorites = [])
    (hnull : channels ≠ .null) (hm : generateM3U8Payload rt channels = .error e) :
    tryBlock cfg rt env cachedData = ({ cachedData with channels := channels }, some e) := by
  simp [tryBlock, h, favoritesFrom_isEmpty, hfav, readLength_ok channels hnull, hm]

theorem tryBlock_guide_error (cfg : Config) (rt : Runtime) (env : UpdateEnv)
    (cachedData : CachedData) (channels : Payload) (m3u8 : String) (e : JSError)
    (h : (grabJSON cfg env.fetch).settled = .ok channels) (hfav : env.favorites = [])
    (hnull : channels ≠ .null) (hm : generateM3U8Payload rt channels = .ok m3u8)
    (hg : generateEPGPayload rt channels = .error e) :
    tryBlock cfg rt env cachedData =
      ({ cachedData with channels := channels, m3u8 := m3u8 }, some e) := by
  simp [tryBlock, h, favoritesFrom_isEmpty, hfav, readLength_ok channels hnull, hm, hg]

theorem tryBlock_generated (cfg : Config) (rt : Runtime) (env : UpdateEnv)
    (cachedData : CachedData) (channels : Payload) (m3u8 epg : String)
    (h : (grabJSON cfg env.fetch).settled = .ok channels) (hfav : env.favorites = [])
    (hnull : channels ≠ .null) (hm : generateM3U8Payload rt channels = .ok m3u8)
    (hg : generateEPGPayload rt channels = .ok epg) :
    tryBlock cfg rt env cachedData =
      ({ cachedData with channels := channels, m3u8 := m3u8, epg := epg,
                         lastUpdate := some env.now },
        match env.writeFileSync "playlist.m3u8" m3u8 with
        | .error e => some e
        | .ok _ =>
          match env.writeFileSync "epg.xml" epg with
          | .error e => some e
          | .ok _ => none) := by
  simp only [tryBlock, h, favoritesFrom_isEmpty, hfav, readLength_ok channels hnull, hm, hg,
    decide_True, Bool.not_true, Bool.false_eq_true, if_false]
  split
  · rfl
  · split <;> rfl

theorem updateData_idle (cfg : Config) (rt : Runtime) (env : UpdateEnv)
    (cachedData : CachedData) (hidle : cachedData.isUpdating = false) :
    updateData cfg rt env cachedData =
      updateBody cfg rt env { cachedData with isUpdating := true } := by
  simp [updateData, hidle]

theorem restore_flag (cachedData : CachedData) (hidle : cachedData.isUpdating = false) :
    ({ ({ cachedData with isUpdating := true } : CachedData) with
      isUpdating := false } : CachedData) = cachedData := by
  cases cachedData
  simp only at hidle
  subst hidle
  rfl

/-- C6 (amended): an update attempt started from Idle that fails at the fetch or at the
favorites filtering leaves `cachedData` as it was before the attempt: `channels`, `m3u8`,
`epg` and `lastUpdate` keep their values and the error is caught.  A failure at a later
step leaves the fields assigned before that step with their new values: `channels` after a
failure of the playlist generation, `channels` and `m3u8` after a failure of the guide
generation, and all four after a failure of a backup-file write.  In every case
`isUpdating` is clear again. -/
theorem update_failure_by_step (cfg : Config) (rt : Runtime) (env : UpdateEnv)
    (cachedData : CachedData) (hidle : cachedData.isUpdating = false) :
    (∀ e : JSError, (grabJSON cfg env.fetch).settled = .error e →
      (updateData cfg rt env cachedData).caught = some e ∧
      (updateData cfg rt env cachedData).cachedData = cachedData) ∧
    (∀ channels : Payload, (grabJSON cfg env.fetch).settled = .ok channels →
      (env.favorites ≠ [] ∨ channels = .null) →
      (∃ message, (updateData cfg rt env cachedData).caught = some (.typeError message)) ∧
      (updateData cfg rt env cachedData).cachedData = cachedData) ∧
    (∀ (channels : Payload) (e : JSError),
      (grabJSON cfg env.fetch).settled = .ok channels → env.favorites = [] →
      channels ≠ .null → generateM3U8Payload rt channels = .error e →
      (updateData cfg rt env cachedData).caught = some e ∧
      (updateData cfg rt env cachedData).cachedData =
        { cachedData with channels := channels }) ∧
    (∀ (channels : Payload) (m3u8 : String) (e : JSError),
      (grabJSON cfg env.fetch).settled = .ok channels → env.favorites = [] →
      channels ≠ .null → generateM3U8Payload rt channels = .ok m3u8 →
      generateEPGPayload rt channels = .error e →
      (updateData cfg rt env cachedData).caught = some e ∧
      (updateData cfg rt env cachedData).cachedData =
        { cachedData with channels := channels, m3u8 := m3u8 }) ∧
    (∀ (channels : Payload) (m3u8 epg : String),
      (grabJSON cfg env.fetch).settled = .ok channels → env.favorites = [] →
      channels ≠ .null → generateM3U8Payload rt channels = .ok m3u8 →
      generateEPGPayload rt channels = .ok epg →
      (updateData cfg rt env cachedData).caught =
        (match env.writeFileSync "playlist.m3u8" m3u8 with
          | .error e => some e
          | .ok _ =>
            match env.writeFileSync "epg.xml" epg with
            | .error e => some e
            | .ok _ => none) ∧
      (updateData cfg rt env cachedData).cachedData =
        { channels := channels, m3u8 := m3u8, epg := epg, lastUpdate := some env.now,
          isUpdating := false }) := by
  rw [updateData_idle cfg rt env cachedData hidle]
  refine ⟨?_, ?_, ?_, ?_, ?_⟩
  · intro e he
    simp [updateBody, tryBlock_fetch_error cfg rt env _ e he, restore_flag cachedData hidle]
  · intro channels hg hfail
    obtain ⟨message, hm⟩ := tryBlock_filter_error cfg rt env
      { cachedData with isUpdating := true } channels hg hfail
    simp [updateBody, hm, restore_flag cachedData hidle]
  · intro channels e hg hfav hnull hm
    simp [updateBody, tryBlock_playlist_error cfg rt env _ channels e hg hfav hnull hm,
      hidle]
  · intro channels m3u8 e hg hfav hnull hm hepg
    simp [updateBody, tryBlock_guide_error cfg rt env _ channels m3u8 e hg hfav hnull hm hepg,
      hidle]
  · intro channels m3u8 epg hg hfav hnull hm hepg
    simp [updateBody, tryBlock_generated cfg rt env _ channels m3u8 epg hg hfav hnull hm hepg]

/-- C6 at a sample input: the API answers with status 500 and the prior snapshot stays. -/
theorem update_failure_by_step_witness :
    priorCachedData.isUpdating = false ∧
    (updateData sampleConfig sampleRuntime (sampleEnv (.response 500 "") [] false)
      priorCachedData).caught = some (.error "API returned status 500") ∧
    (updateData sampleConfig sampleRuntime (sampleEnv (.response 500 "") [] false)
      priorCachedData).cachedData = priorCachedData :=
  ⟨rfl, (update_failure_by_step sampleConfig sampleRuntime
    (sampleEnv (.response 500 "") [] false) priorCachedData rfl).1
    (.error "API returned status 500") rfl⟩

/-- C6 (as stated, refuted): three update attempts started from Idle end in failure with
the snapshot changed.  A payload that is not an array makes the playlist generation throw
after `channels` was replaced; a stitched channel whose `timelines` is not an array makes
the guide generation throw after `channels` and `m3u8` were replaced; a failing
backup-file write comes after all four fields were replaced. -/
theorem update_failure_after_assignments_counterexample :
    priorCachedData.isUpdating = false ∧
    (updateData sampleConfig sampleRuntime (payloadEnv .notArray) priorCachedData).caught =
      some (.typeError "channels.forEach is not a function") ∧
    (updateData sampleConfig sampleRuntime (payloadEnv .notArray) priorCachedData).cachedData =
      { priorCachedData with channels := .notArray } ∧
    (updateData sampleConfig sampleRuntime (payloadEnv .notArray)
      priorCachedData).cachedData.channels ≠ priorCachedData.channels ∧
    (updateData sampleConfig sampleRuntime
      (payloadEnv (.array [.oddTimelines sampleChannel])) priorCachedData).caught =
      some (.typeError "channel.timelines.forEach is not a function") ∧
    (updateData sampleConfig sampleRuntime
      (payloadEnv (.array [.oddTimelines sampleChannel])) priorCachedData).cachedData =
      { priorCachedData with channels := .array [.oddTimelines sampleChannel],
                             m3u8 := generateM3U8 sampleRuntime [sampleChannel] } ∧
    (updateData sampleConfig sampleRuntime
      (payloadEnv (.array [.oddTimelines sampleChannel]))
      priorCachedData).cachedData.m3u8 ≠ priorCachedData.m3u8 ∧
    (updateData sampleConfig sampleRuntime (sampleEnv (.response 200 "[]") [] true)
      priorCachedData).caught = some (.error "EACCES: permission denied") ∧
    (updateData sampleConfig sampleRuntime (sampleEnv (.response 200 "[]") [] true)
      priorCachedData).cachedData.channels = Payload.ofChannels [sampleChannel] ∧
    (updateData sampleConfig sampleRuntime (sampleEnv (.response 200 "[]") [] true)
      priorCachedData).cachedData.channels ≠ priorCachedData.channels ∧
    (updateData sampleConfig sampleRuntime (sampleEnv (.response 200 "[]") [] true)
      priorCachedData).cachedData.m3u8 ≠ priorCachedData.m3u8 ∧
    (updateData sampleConfig sampleRuntime (sampleEnv (.response 200 "[]") [] true)
      priorCachedData).cachedData.epg ≠ priorCachedData.epg ∧
    (updateData sampleConfig sampleRuntime (sampleEnv (.response 200 "[]") [] true)
      priorCachedData).cachedData.lastUpdate ≠ priorCachedData.lastUpdate := by
  refine ⟨rfl, rfl, rfl, ?_, rfl, rfl, ?_, rfl, rfl, ?_, ?_, ?_, ?_⟩
  · decide
  · decide
  · decide
  · decide
  · decide
  · decide

/-- C2 (the code at the failing input): with the favorites list `["news"]` and the fetched
list `[sampleChannel]`, whose channel the favorites predicate accepts, the update throws
the `TypeError` of `channels.filter(favoritesFilter)` and publishes nothing: `cachedData`
is what it was.  The same holds for every non-empty favorites list, while with an empty
list the fetched channels are published and both documents are generated from them. -/
theorem update_with_favorites_publishes_nothing :
    FavoritesFilter.filter asciiLower (favoritesFrom ["news"]) sampleChannel = true ∧
    (grabJSON sampleConfig (sampleEnv (.response 200 "[]") ["news"] false).fetch).settled =
      .ok (Payload.ofChannels [sampleChannel]) ∧
    (updateData sampleConfig sampleRuntime (sampleEnv (.response 200 "[]") ["news"] false)
      priorCachedData).caught = some (.typeError "#<FavoritesFilter> is not a function") ∧
    (updateData sampleConfig sampleRuntime (sampleEnv (.response 200 "[]") ["news"] false)
      priorCachedData).cachedData = priorCachedData ∧
    (∀ (cfg : Config) (rt : Runtime) (env : UpdateEnv) (cachedData : CachedData)
        (channels : List Channel), cachedData.isUpdating = false →
        (grabJSON cfg env.fetch).settled = .ok (Payload.ofChannels channels) →
        env.favorites ≠ [] →
      (updateData cfg rt env cachedData).caught =
          some (.typeError "#<FavoritesFilter> is not a function") ∧
        (updateData cfg rt env cachedData).cachedData = cachedData) ∧
    (∀ (cfg : Config) (rt : Runtime) (env : UpdateEnv) (cachedData : CachedData)
        (channels : List Channel), cachedData.isUpdating = false →
        (grabJSON cfg env.fetch).settled = .ok (Payload.ofChannels channels) →
        env.favorites = [] →
      (updateData cfg rt env cachedData).cachedData =
        { channels := Payload.ofChannels channels, m3u8 := generateM3U8 rt channels,
          epg := generateEPG rt channels, lastUpdate := some env.now,
          isUpdating := false }) := by
  refine ⟨by decide, rfl, rfl, rfl, ?_, ?_⟩
  · intro cfg rt env cachedData channels hidle hg hfav
    rw [updateData_idle cfg rt env cachedData hidle]
    simp [updateBody, tryBlock_filter_error_array cfg rt env _ _ hg hfav,
      restore_flag cachedData hidle]
  · intro cfg rt env cachedData channels hidle hg hfav
    rw [updateData_idle cfg rt env cachedData hidle]
    simp [updateBody, tryBlock_generated cfg rt env _ (Payload.ofChannels channels)
      (generateM3U8 rt channels) (generateEPG rt channels) hg hfav
      (by simp [Payload.ofChannels]) (generateM3U8Payload_ofChannels rt channels)
      (generateEPGPayload_ofChannels rt channels)]

/-- C7 (the code at the failing input): a refresh request that arrives while `isUpdating`
is clear and whose fetch is answered with status 500 starts an update that fails with
`API returned status 500`, yet the handler answers success with the previous `lastUpdate`;
`updateData` always resolves, so the handler never sends its failure answer. -/
theorem refresh_answers_success_when_update_fails :
    priorCachedData.isUpdating = false ∧
    (updateData sampleConfig sampleRuntime (sampleEnv (.response 500 "") [] false)
      priorCachedData).caught = some (.error "API returned status 500") ∧
    (refreshHandler sampleConfig sampleRuntime (sampleEnv (.response 500 "") [] false)
      priorCachedData).2 = .success (some "2023-12-31 09:00:00") ∧
    (∀ (cfg : Config) (rt : Runtime) (env : UpdateEnv) (cachedData : CachedData)
        (message : String),
      (refreshHandler cfg rt env cachedData).2 ≠ .failed message) := by
  refine ⟨rfl, rfl, rfl, ?_⟩
  intro cfg rt env cachedData message
  unfold refreshHandler
  split
  · simp
  · simp [refreshResponse, updateData_settled]


end PlutoIPTV
